import Mathlib

/-!
Shallow embedding of the TDRCluster core loop (src/core/state.py, src/core/tools.py,
src/core/graph.py, src/services/clustering_service.py, src/services/llm_service.py,
src/core/prompts.py).

Modelling conventions:
* Python `deque` (FIFO) is a `List` popped at the head and appended at the tail.
* The insertion-ordered `dict` `state["categories"]` is an association list
  `List (String × Category)`; `dictInsert` replaces in place when the key exists and
  appends otherwise, exactly like a Python dict assignment.
* The k-means oracle (`KMeans.fit` labels) and the random sampler
  (`ClusteringService._extract_samples`) are external collaborators and are passed in
  as function parameters (`labels`, `extract_samples`).
* Embedding vectors (Python `List[float]`) are carried as `List Rat`; no claim under
  verification computes with them.
* Configuration values are modelled at their documented defaults
  (`max_samples_per_cluster = 10`, `min_cluster_size.absolute = 10`,
  `min_cluster_size.ratio = 0.005`, where the float ratio `0.005` is the rational
  `5/1000` and Python `int()` truncation of a nonnegative value is `Nat` floor
  division).
-/

namespace TDR

/-- Model of `src/core/state.py` `Query`: one textual input with a precomputed embedding. -/
structure Query where
  id : String
  content : String
  embedding : List Rat
deriving DecidableEq, Repr

/-- Model of `src/core/state.py` `Task`: a deferred partition job. -/
structure Task where
  queries : List Query
  k_value : Int
deriving DecidableEq, Repr

/-- A validated LLM decision dict as produced by
`LLMService._validate_xml_response` (`src/services/llm_service.py`): the `id` field is
the comma-separated cluster refs, `action` is stripped and lowercased, and the
action-specific payload keys are present only when extracted. -/
structure Decision where
  id : String
  action : String
  description : Option String := none
  target_id : Option String := none
  description_update : Option String := none
  k_value : Option Int := none
deriving DecidableEq, Repr

/-- Model of `src/core/state.py` `Cluster`: transient partition output; `judge` is the decision
attached by the reviewer. -/
structure Cluster where
  id : String
  queries : List Query
  samples : List String := []
  judge : Option Decision := none
deriving DecidableEq, Repr

/-- Model of `src/core/state.py` `Category`: a finalized semantic class. -/
structure Category where
  id : String
  description : String
  queries : List Query
  samples : List String := []
deriving DecidableEq, Repr

/-- Model of `src/core/state.py` `GraphState`: the loop-global workspace. -/
@[ext]
structure GraphState where
  tasks : List Task
  categories : List (String × Category)
  clusters_list : List Cluster
  dataset_name : Option String
  total_queries : Nat
  min_cluster_size : Nat
deriving DecidableEq, Repr

/-- Fuel-indexed big-endian decimal rendering: digits of `n` (empty for `n = 0`),
used to model Python's decimal formatting of category indices. -/
def toDecimalAux : Nat → Nat → List Char
  | 0, _ => []
  | fuel + 1, n => if n = 0 then [] else toDecimalAux fuel (n / 10) ++ [Nat.digitChar (n % 10)]

/-- Big-endian decimal digit characters of `n` (empty list for `0`). -/
def decimalDigits (n : Nat) : List Char :=
  toDecimalAux n n

/-- Python `f"{n:03d}"`: decimal rendering of `n` left-padded with `'0'` to width 3. -/
def pad3 (n : Nat) : String :=
  let ds := decimalDigits n
  ⟨List.replicate (3 - ds.length) '0' ++ ds⟩

/-- Value of a big-endian list of decimal digit characters (left inverse of the
renderings above, used to prove that distinct indices yield distinct ids). -/
def digitsToNatChars (l : List Char) : Nat :=
  l.foldl (fun a c => a * 10 + (c.toNat - 48)) 0

/-- Python `str.strip()`: drop leading and trailing whitespace (modelled directly on
the character list so that concrete runs evaluate inside the kernel). -/
def pyStrip (s : String) : String :=
  ⟨((s.data.dropWhile (fun c => c.isWhitespace)).reverse.dropWhile
      (fun c => c.isWhitespace)).reverse⟩

/-- The character-list splitter behind `pySplit`: split at every comma. -/
def splitCommaChars : List Char → List (List Char)
  | [] => [[]]
  | c :: rest =>
    if c = ',' then [] :: splitCommaChars rest
    else
      match splitCommaChars rest with
      | [] => [[c]]
      | g :: gs => (c :: g) :: gs

/-- Python `s.split(",")`: split on every comma, keeping empty parts
(`"".split(",") == [""]`). -/
def pySplit (s : String) : List String :=
  (splitCommaChars s.data).map (fun l => ⟨l⟩)

/-- Python `str.lower()` (ASCII case folding, as exercised by the action verbs). -/
def pyLower (s : String) : String :=
  ⟨s.data.map Char.toLower⟩

/-- Python dict assignment `m[k] = v` on an insertion-ordered dict: replace in place
when the key is present, append otherwise. -/
def dictInsert (m : List (String × Category)) (k : String) (v : Category) :
    List (String × Category) :=
  if m.any (fun p => p.1 = k) then
    m.map (fun p => if p.1 = k then (k, v) else p)
  else
    m ++ [(k, v)]

/-- Python dict lookup `m[k]` / `k in m` on the categories map. -/
def lookupCat (m : List (String × Category)) (k : String) : Option Category :=
  (m.find? (fun p => p.1 = k)).map (fun p => p.2)

/-- Default of `clustering.max_samples_per_cluster` default (`src/config`): cap on stored
sample contents. -/
def max_samples_per_cluster : Nat := 10

/-- Model of `src/core/tools.py` `create_new_category_tool`: allocate
`CAT-{len(state['categories']) + 1:03d}`, concatenate the `queries` and `samples` of
all given clusters, truncate samples to the configured cap, and insert the new
`Category` into the map. -/
def create_new_category_tool (state : GraphState) (clusters : List Cluster)
    (description : String) : GraphState :=
  let new_category_id := "CAT-" ++ pad3 (state.categories.length + 1)
  let all_queries := clusters.flatMap (fun c => c.queries)
  let all_samples := clusters.flatMap (fun c => c.samples)
  let new_category : Category :=
    { id := new_category_id, description := description, queries := all_queries,
      samples := all_samples.take max_samples_per_cluster }
  { state with categories := dictInsert state.categories new_category_id new_category }

/-- Model of `src/core/tools.py` `assign_to_existing_tool`: if the target category is missing,
log and return unchanged; otherwise extend its `queries` and `samples` with the
cluster's, and replace its description when `description_update != "no_update"`. -/
def assign_to_existing_tool (state : GraphState) (cluster : Cluster) (target_id : String)
    (description_update : String) : GraphState :=
  match lookupCat state.categories target_id with
  | none => state
  | some existing_category =>
    let c1 : Category :=
      { existing_category with
        queries := existing_category.queries ++ cluster.queries,
        samples := existing_category.samples ++ cluster.samples }
    let c2 : Category :=
      if description_update ≠ "no_update" then { c1 with description := description_update }
      else c1
    { state with categories := dictInsert state.categories target_id c2 }

/-- Fixed description given to `TRASH_CATEGORY` on first creation
(`src/core/tools.py` `subdivide_task_tool`). -/
def trash_category_description : String :=
  "混乱语义簇 - 包含语义混杂、无法进一步归类的查询\n典型例子：各类零散的、主题不明确的查询"

/-- Model of `src/core/tools.py` `subdivide_task_tool`: if the cluster is below
`min_cluster_size`, route it to `TRASH_CATEGORY` (created on first need with the
fixed description and — only inside that creation branch — the cluster's samples;
afterwards the cluster's queries are appended); otherwise enqueue a new
`Task(cluster.queries, new_k)` at the tail of the queue. -/
def subdivide_task_tool (state : GraphState) (cluster : Cluster) (new_k : Int)
    (min_cluster_size : Nat) : GraphState :=
  if cluster.queries.length < min_cluster_size then
    -- ensure the trash category exists; the `samples.extend` of the source sits
    -- inside this creation branch, so samples are seeded only here
    let state1 :=
      if lookupCat state.categories "TRASH_CATEGORY" = none then
        { state with
          categories := dictInsert state.categories "TRASH_CATEGORY"
            { id := "TRASH_CATEGORY", description := trash_category_description,
              queries := [], samples := [] ++ cluster.samples } }
      else state
    match lookupCat state1.categories "TRASH_CATEGORY" with
    | none => state1
    | some trash =>
      { state1 with
        categories := dictInsert state1.categories "TRASH_CATEGORY"
          { trash with queries := trash.queries ++ cluster.queries } }
  else
    { state with tasks := state.tasks ++ [{ queries := cluster.queries, k_value := new_k }] }

/-- Model of `src/core/tools.py` `parse_cluster_ids`: split a comma-separated id string,
strip each part, drop empty parts (and return `[]` on the empty string). -/
def parse_cluster_ids (ids_str : String) : List String :=
  if ids_str = "" then []
  else ((pySplit ids_str).map (fun s => pyStrip s)).filter (fun s => s ≠ "")

/-- The dict comprehension `{c.id: c for c in clusters}` of
`src/core/tools.py` `get_clusters_by_ids`: later clusters overwrite earlier ones. -/
def clusterMapLookup (clusters : List Cluster) (cid : String) : Option Cluster :=
  clusters.foldl (fun acc c => if c.id = cid then some c else acc) none

/-- Model of `src/core/tools.py` `get_clusters_by_ids`: resolve each id through the cluster
map, logging and skipping ids that are not found. -/
def get_clusters_by_ids (clusters : List Cluster) (cluster_ids : List String) :
    List Cluster :=
  cluster_ids.filterMap (fun cid => clusterMapLookup clusters cid)

/-- The clamp `if len(queries) < k_value: k_value = len(queries)` of
`ClusteringService.perform_clustering` (`src/services/clustering_service.py`),
converted to the `Nat` used for `range` (negative k behaves like Python's empty
`range`). -/
def clampedK (queries : List Query) (k_value : Int) : Nat :=
  (if (queries.length : Int) < k_value then (queries.length : Int) else k_value).toNat

/-- Model of `src/services/clustering_service.py` `ClusteringService.perform_clustering`.
The k-means labelling is the external partitioner oracle `labels` (index ↦ label);
the random sampler `_extract_samples` is the oracle `extract_samples`. Queries are
grouped by label over `range k`, empty groups are discarded, and each kept group
becomes a `Cluster` with a fresh monotone id `cluster-<counter>` and `judge = none`. -/
def perform_clustering (queries : List Query) (k_value : Int) (labels : Nat → Nat)
    (extract_samples : List Query → List String) (cluster_counter : Nat) :
    List Cluster :=
  if queries = [] then []
  else
    let k := clampedK queries k_value
    let clustered_queries :=
      (List.range k).map
        (fun i => ((queries.enum.filter (fun p => labels p.1 = i)).map (fun p => p.2)))
    let nonempty := clustered_queries.filter (fun g => !g.isEmpty)
    nonempty.enum.map
      (fun p =>
        { id := "cluster-" ++ toString (cluster_counter + p.1 + 1),
          queries := p.2,
          samples := extract_samples p.2,
          judge := none : Cluster })

/-- Model of `src/services/clustering_service.py` `ClusteringService.calculate_min_cluster_size`
at the configuration defaults: `max(10, int(total_queries * 0.005))`, the float ratio
modelled as the exact rational `5/1000`. -/
def calculate_min_cluster_size (total_queries : Nat) : Nat :=
  max 10 (total_queries * 5 / 1000)

/-- Model of `src/core/graph.py` `TDRClusterGraph.clusterer_node`: pop one task from the front
of the queue (empty queue ⇒ empty batch) and run `perform_clustering` on it. A node
returns a partial update dict; LangGraph merges it into the state, so unmentioned
fields are carried over unchanged. -/
def clusterer_node (labels : Nat → Nat) (extract_samples : List Query → List String)
    (cluster_counter : Nat) (state : GraphState) : GraphState :=
  match state.tasks with
  | [] => { state with clusters_list := [] }
  | current_task :: rest =>
    { state with
      tasks := rest,
      clusters_list :=
        perform_clustering current_task.queries current_task.k_value labels
          extract_samples cluster_counter }

/-- Model of `src/core/graph.py` `TDRClusterGraph._attach_decisions_to_clusters`: for each
decision and each of its referenced cluster ids, set that cluster's `judge` to the
decision (batch cluster ids are unique per run, so updating every matching list
entry coincides with the source's dict-based update). -/
def _attach_decisions_to_clusters (clusters : List Cluster)
    (decisions : List Decision) : List Cluster :=
  decisions.foldl
    (fun cs decision =>
      cs.map (fun c =>
        if c.id ∈ parse_cluster_ids decision.id then { c with judge := some decision }
        else c))
    clusters

/-- Model of `src/core/graph.py` `TDRClusterGraph.reviewer_node`: on an empty batch, a no-op;
otherwise attach the validated LLM decision set (the external oracle `decisions`,
i.e. `validation_result['decisions']`) to the batch clusters. -/
def reviewer_node (decisions : List Decision) (state : GraphState) : GraphState :=
  if state.clusters_list = [] then { state with clusters_list := [] }
  else { state with clusters_list := _attach_decisions_to_clusters state.clusters_list decisions }

/-- Model of `src/core/graph.py` `TDRClusterGraph._handle_create_action`: resolve all
referenced clusters from the current batch and create a merged category (skipping
when none resolve); a missing description falls back to the fixed default text. -/
def _handle_create_action (state : GraphState) (decision : Decision) : GraphState :=
  let cluster_ids := parse_cluster_ids decision.id
  let all_clusters := get_clusters_by_ids state.clusters_list cluster_ids
  if all_clusters = [] then state
  else
    let description := decision.description.getD "新创建的类别"
    create_new_category_tool state all_clusters description

/-- Model of `src/core/graph.py` `TDRClusterGraph._handle_assign_action`: resolve all
referenced clusters, append each to the target category with `"no_update"`, then
apply a final description update when requested and the target still exists. A
missing or empty `target_id` (Python falsiness) skips the decision. -/
def _handle_assign_action (state : GraphState) (decision : Decision) : GraphState :=
  let cluster_ids := parse_cluster_ids decision.id
  let all_clusters := get_clusters_by_ids state.clusters_list cluster_ids
  if all_clusters = [] then state
  else
    match decision.target_id with
    | none => state
    | some target_id =>
      if target_id = "" then state
      else
        let description_update := decision.description_update.getD "no_update"
        let state1 :=
          all_clusters.foldl
            (fun st cluster_item => assign_to_existing_tool st cluster_item target_id "no_update")
            state
        if description_update ≠ "no_update" then
          match lookupCat state1.categories target_id with
          | none => state1
          | some cat =>
            { state1 with
              categories := dictInsert state1.categories target_id
                { cat with description := description_update } }
        else state1

/-- Model of `src/core/graph.py` `TDRClusterGraph._handle_subdivide_action`: a missing or
zero `k_value` (Python falsiness of `None` and `0`) skips the decision entirely;
otherwise delegate to `subdivide_task_tool`. -/
def _handle_subdivide_action (state : GraphState) (cluster : Cluster)
    (decision : Decision) (min_cluster_size : Nat) : GraphState :=
  match decision.k_value with
  | none => state
  | some k_value =>
    if k_value = 0 then state
    else subdivide_task_tool state cluster k_value min_cluster_size

/-- One iteration of the dispatcher loop body of
`src/core/graph.py` `TDRClusterGraph.dispatcher_node`: dispatch on the cluster's
attached decision (clusters without a decision, and unknown actions, are skipped). -/
def processCluster (state : GraphState) (cluster : Cluster) : GraphState :=
  match cluster.judge with
  | none => state
  | some decision =>
    let action := pyLower decision.action
    if action = "create" then _handle_create_action state decision
    else if action = "assign" then _handle_assign_action state decision
    else if action = "subdivide" then
      _handle_subdivide_action state cluster decision state.min_cluster_size
    else state

/-- Model of `src/core/graph.py` `TDRClusterGraph.dispatcher_node`: iterate over the batch
clusters in order, executing each attached decision, then clear the batch. -/
def dispatcher_node (state : GraphState) : GraphState :=
  if state.clusters_list = [] then { state with clusters_list := [] }
  else { state.clusters_list.foldl processCluster state with clusters_list := [] }

/-- The initial state built by `src/core/graph.py` `TDRClusterGraph.run`: one root
task, empty categories and batch, and the cached `total_queries` and
`min_cluster_size` statistics computed once up front. -/
def runInitialState (initial_queries : List Query) (initial_k : Int)
    (dataset_name : Option String) : GraphState :=
  { tasks := [{ queries := initial_queries, k_value := initial_k }],
    categories := [],
    clusters_list := [],
    dataset_name := dataset_name,
    total_queries := initial_queries.length,
    min_cluster_size := calculate_min_cluster_size initial_queries.length }

/-- One `<decision>` element of the parsed `<decisions>` document
(`src/services/llm_service.py` `_validate_xml_response`): each field is the text of
the corresponding child element, `none` when the element is absent. -/
structure RawDecision where
  id : Option String := none
  action : Option String := none
  description : Option String := none
  target_id : Option String := none
  description_update : Option String := none
  k_value : Option String := none
deriving DecidableEq, Repr

/-- The Python check `elem is None or not elem.text`: an absent element or empty
text both count as missing. -/
def textOf (o : Option String) : Option String :=
  o.bind (fun s => if s = "" then none else some s)

/-- Python `int(s)` on an already-stripped string: an optional sign followed by at
least one decimal digit (digit-separating underscores are not modelled; the claims
never exercise them). -/
def pyParseInt (s : String) : Option Int :=
  match s.toList with
  | [] => none
  | c :: rest =>
    if c = '-' then
      if rest ≠ [] ∧ rest.all (fun d => d.isDigit) then some (-(digitsToNatChars rest : Int))
      else none
    else if c = '+' then
      if rest ≠ [] ∧ rest.all (fun d => d.isDigit) then some ((digitsToNatChars rest : Int))
      else none
    else if (c :: rest).all (fun d => d.isDigit) then some ((digitsToNatChars (c :: rest) : Int))
    else none

/-- Field extraction for a single `<decision>` element, mirroring the per-decision
body of `_validate_xml_response`: id and action are required, the action is stripped
and lowercased, and the action-specific payload is extracted and type-checked (with
the `target_id` existence check against the current category map occurring before
the `description_update` check, as in the source). -/
def parseOneDecision (existing_categories : List String) (raw : RawDecision) :
    Except String Decision :=
  match textOf raw.id with
  | none => .error "决策缺少id字段"
  | some idText =>
    match textOf raw.action with
    | none => .error "决策缺少action字段"
    | some actText =>
      let action := pyLower (pyStrip actText)
      if action = "create" then
        match textOf raw.description with
        | none => .error "create决策缺少description字段"
        | some desc =>
          .ok { id := pyStrip idText, action := action, description := some (pyStrip desc) }
      else if action = "assign" then
        match textOf raw.target_id with
        | none => .error "assign决策缺少target_id字段"
        | some t =>
          let target_id := pyStrip t
          if ¬ (target_id ∈ existing_categories) then
            .error "assign决策的target_id不存在于现有categories中"
          else
            match textOf raw.description_update with
            | none => .error "assign决策缺少description_update字段"
            | some du =>
              .ok { id := pyStrip idText, action := action, target_id := some target_id,
                    description_update := some (pyStrip du) }
      else if action = "subdivide" then
        match textOf raw.k_value with
        | none => .error "subdivide决策缺少k_value字段"
        | some ks =>
          match pyParseInt (pyStrip ks) with
          | none => .error "k_value必须为整数"
          | some k =>
            .ok { id := pyStrip idText, action := action, k_value := some k }
      else .error "无效的action"

/-- The per-decision bookkeeping `decision_cluster_ids` / `duplicate_clusters` of
`_validate_xml_response`: add each referenced id to the seen set, recording a
duplicate when it was already seen. -/
def addRefIds (cids : List String) (seen dups : List String) :
    List String × List String :=
  cids.foldl
    (fun p cid => if cid ∈ p.1 then (p.1, p.2 ++ [cid]) else (p.1 ++ [cid], p.2))
    (seen, dups)

/-- The decision loop of `_validate_xml_response`: parse each `<decision>` in order
(failing fast with the first error), collecting the parsed decisions, the set of
referenced cluster ids, and the duplicate list. -/
def parseAllDecisions (existing_categories : List String) :
    List RawDecision → List String → List String →
    Except String (List Decision × List String × List String)
  | [], seen, dups => .ok ([], seen, dups)
  | raw :: rest, seen, dups =>
    match parseOneDecision existing_categories raw with
    | .error e => .error e
    | .ok d =>
      let cids := (pySplit d.id).map (fun s => pyStrip s)
      let p := addRefIds cids seen dups
      match parseAllDecisions existing_categories rest p.1 p.2 with
      | .error e => .error e
      | .ok (ds, seen2, dups2) => .ok (d :: ds, seen2, dups2)

/-- The result dict of `_validate_xml_response`. -/
structure ValidationResult where
  valid : Bool
  decisions : List Decision
  error_message : String
  missing_clusters : List String
  extra_clusters : List String
  duplicate_clusters : List String
deriving DecidableEq, Repr

/-- Model of `src/services/llm_service.py` `LLMService._validate_xml_response`, from the
parsed `<decision>` elements onwards (the XML preprocessing — leading-text strip
and `&` escaping — happens upstream of this decision-level validation).
`existing_categories` is the key set of the current category map. On any parse
error, on missing or extra or duplicate cluster ids, the result is invalid and its
`decisions` list stays empty. -/
def _validate_xml_response (cluster_ids : List String)
    (existing_categories : List String) (raws : List RawDecision) :
    ValidationResult :=
  match parseAllDecisions existing_categories raws [] [] with
  | .error e =>
    { valid := false, decisions := [], error_message := e,
      missing_clusters := [], extra_clusters := [], duplicate_clusters := [] }
  | .ok (decisions, decision_cluster_ids, duplicate_clusters) =>
    -- Python's `list(set(cluster_ids) - decision_cluster_ids)`: a set difference whose
    -- iteration order is unspecified; only its emptiness matters downstream.
    let missing_clusters :=
      cluster_ids.filter (fun cid => ¬ (cid ∈ decision_cluster_ids))
    let extra_clusters :=
      decision_cluster_ids.filter (fun cid => ¬ (cid ∈ cluster_ids))
    if missing_clusters = [] ∧ extra_clusters = [] ∧ duplicate_clusters = [] then
      { valid := true, decisions := decisions, error_message := "",
        missing_clusters := missing_clusters, extra_clusters := extra_clusters,
        duplicate_clusters := duplicate_clusters }
    else
      { valid := false, decisions := [], error_message := "决策集不完整",
        missing_clusters := missing_clusters, extra_clusters := extra_clusters,
        duplicate_clusters := duplicate_clusters }

/-- The category display dict built by
`src/core/prompts.py` `create_category_display_dict`. -/
structure CatDisplay where
  id : String
  description : String
  queries : List Query
  query_count : Nat
  samples : List String
deriving DecidableEq, Repr

/-- The cluster display dict built by
`src/core/prompts.py` `create_cluster_display_dict`. -/
structure ClusterDisplay where
  id : String
  queries : List Query
  samples : List String
  query_count : Nat
deriving DecidableEq, Repr

/-- Model of `src/core/prompts.py` `create_category_display_dict`. -/
def create_category_display_dict (category : Category) : CatDisplay :=
  { id := category.id, description := category.description, queries := category.queries,
    query_count := category.queries.length, samples := category.samples }

/-- Model of `src/core/prompts.py` `create_cluster_display_dict`. -/
def create_cluster_display_dict (cluster : Cluster) : ClusterDisplay :=
  { id := cluster.id, queries := cluster.queries, samples := cluster.samples,
    query_count := cluster.queries.length }

/-- The per-sample truncation `sample[:50] + ('...' if len(sample) > 50 else '')`
of `create_review_prompt`. -/
def sampleTrunc (sample : String) : String :=
  sample.take 50 ++ (if sample.length > 50 then "..." else "")

/-- The `existing_categories_xml` block of `create_review_prompt`: only each
category's `id`, `description` and `len(queries)` are rendered — the query contents
themselves never appear. -/
def existingCategoriesXml (finalized_categories : List CatDisplay) : String :=
  if finalized_categories = [] then
    "<existing_categories>\n  <!-- 暂无已确定的类别 -->\n</existing_categories>\n\n"
  else
    "<existing_categories>\n" ++
      String.join (finalized_categories.map (fun cat =>
        "  <category>\n    <id>" ++ cat.id ++ "</id>\n    <description>" ++
          cat.description ++ "</description>\n    <query_count>" ++
          toString cat.queries.length ++ "</query_count>\n  </category>\n")) ++
      "</existing_categories>\n\n"

/-- The `clusters_xml` block of `create_review_prompt`: each cluster's id, truncated
samples and `len(queries)`. -/
def clustersXml (clusters_to_review : List ClusterDisplay) : String :=
  "<clusters_to_review>\n" ++
    String.join (clusters_to_review.map (fun cluster =>
      "  <cluster id=\"" ++ cluster.id ++ "\">\n    <samples>" ++
        String.intercalate ", " (cluster.samples.map sampleTrunc) ++
        "</samples>\n    <query_count>" ++ toString cluster.queries.length ++
        "</query_count>\n  </cluster>\n")) ++
    "</clusters_to_review>"

/-- The fixed fallback of `runtime.high_level_goal`. -/
def default_high_level_goal : String :=
  "对用户查询进行智能意图分类，生成具有明确业务含义的高质量类别"

/-- Model of `src/core/prompts.py` `create_review_prompt`. The two `CONFIG['runtime']`
lookups are passed in as parameters (`high_level_goal_cfg`, defaulted when missing
or falsy; `target_range_cfg`, defaulted to `"15"`); `dataset_name` is accepted but,
as in the source, never used. -/
def create_review_prompt (finalized_categories : List CatDisplay)
    (clusters_to_review : List ClusterDisplay) (dataset_name : Option String)
    (high_level_goal_cfg : Option String) (target_range_cfg : Option String) :
    String :=
  let high_level_goal :=
    match high_level_goal_cfg with
    | none => default_high_level_goal
    | some g => if g = "" then default_high_level_goal else g
  let target_range := target_range_cfg.getD "15"
  let existing_categories_xml := existingCategoriesXml finalized_categories
  let clusters_xml := clustersXml clusters_to_review
  "<role>You are an expert data analyst. Your task is to review unlabeled query clusters and output your decisions in a structured XML format. You must ensure EVERY cluster is judged exactly once.</role>

<high_level_goal>
" ++ high_level_goal ++ "

Based on this objective, analyze each cluster's semantic content thoughtfully and make intelligent classification decisions. Ensure every cluster is appropriately categorized to achieve comprehensive, balanced, and meaningful classification across the entire dataset. Pay careful attention to the semantic hierarchy, consistency, and logical coherence of the overall category structure.

**Target Category Count**: Aim for " ++ target_range ++ " final categories in total. Keep this range in mind when making decisions to achieve optimal classification granularity, only the subdivide action can increase the number of categories.
</high_level_goal>

" ++ existing_categories_xml ++ "<task>
  <instruction>
    Your goal is to categorize the clusters below. For each cluster, you must choose ONE of three actions: `assign`, `subdivide`, or `create`.

    **Core Principle: Granularity is Key. Focus on Specific, Actionable User Intents.**
    Your primary goal is to define categories that represent a *single, distinct, and actionable user intent*. Do not group queries by broad topics. A shared keyword (e.g., 'credit card') is insufficient. The queries must share a common, specific goal (e.g., 'apply for a credit card,' not 'credit card information').

    **Bad, Topic-Based Categories (AVOID THESE):**
    - \"Credit Card Issues\"
    - \"Account Information\"
    - \"Technical Problems\"
    - \"Product Questions\"

    **Your Decision-Making Flow (Internal Thoughts - Do NOT output this):**

    1.  **Analyze the Cluster**: What is the core, specific *goal* of the users in this cluster? Is there only one goal or multiple?

    2.  **PRIORITY 1: `assign`**:
        - **Question**: Does this cluster's single, specific intent perfectly match the intent of an *existing* category?
        - **Action**: If yes, `assign` it. If the cluster's queries can enrich the existing category's description, provide a `description_update`.

    3.  **PRIORITY 2: `subdivide`**:
        - **Question**: Does this cluster contain multiple distinct user intents? Or does it represent a broad topic that needs to be broken down into specific intents?
        - **Action**: If yes, `subdivide`. Determine the exact number of unique, specific intents (`k_value`) you can identify.

    4.  **PRIORITY 3: `create`**:
        - **Question**: Does this cluster represent a *single, cohesive, and new* user intent that doesn't fit any existing category?
        - **Action**: If yes, and only then, `create` a new category. The description must be highly specific.

    **Use Query Count as a Heuristic:**
    The `query_count` for each cluster is a valuable signal for your decision-making.
    - **High Query Count (e.g., >100)**: These clusters are often too broad. Be very cautious with `create`. prefer `subdivide` and use a higher `k_value` to break it down into more granular intents. A large cluster is unlikely to represent a single new intent.
    - **Low Query Count (e.g., <20)**: These clusters are more likely to represent a niche, specific intent. They are good candidates for `create` if they are cohesive and don't fit existing categories, or for `assign` if they match one.

    **Action Rules (For your final XML output):**
    - **`assign`**: Provide `target_id`. Also provide `description_update` if you are refining the category description; otherwise, use `no_update`.
    - **`subdivide`**: Provide a `k_value` (integer from 2 to 5) representing the number of distinct intents you've identified.
    - **`create`**: Provide a rich `description` for the new category, following the required format.

    **CRITICAL**: Every cluster must be judged exactly once. Your final output must be a single `<decisions>` XML block as shown in the example.
  </instruction>

  " ++ clusters_xml ++ "
</task>

<good_vs_bad_examples>
  To help you understand the required granularity, here are examples:

  **Example 1: A cluster about 'Credit Cards'**
  - **BAD DECISION**: `create` a single category named \"Credit Card Issues\". This is too broad.
  - **GOOD DECISION**: `subdivide` the cluster into multiple, specific intent-based categories like:
    - Category A: \"Credit Card Application & Status\" (queries: 'how to apply', 'check my application status')
    - Category B: \"Credit Card Billing & Payments\" (queries: 'when is my bill due', 'how to pay my bill')
    - Category C: \"Reporting Lost or Stolen Cards\" (queries: 'I lost my card', 'someone stole my wallet')

  **Example 2: A cluster about 'Account Information'**
  - **BAD DECISION**: `create` a single category named \"Account Info\".
  - **GOOD DECISION**: `subdivide` it into:
    - Category A: \"Checking Account Balance\" (queries: 'what's my balance', 'how much money do I have')
    - Category B: \"Updating Personal Information\" (queries: 'change my address', 'update my phone number')
</good_vs_bad_examples>

<format_requirements>
  Your entire response must be a single XML block with <decisions> as the root element:

  <decisions>
    <decision>
      <id>cluster-id(s)</id>
      <action>create|assign|subdivide</action>
      <!-- For CREATE: provide description -->
      <!-- For ASSIGN: provide target_id and description_update -->
      <!-- For SUBDIVIDE: provide k_value -->
    </decision>
    <!-- More decisions... -->
  </decisions>

  For CREATE actions, provide Rich Description with this format:
  \"主要描述 - 详细解释和覆盖范围\\n典型例子：具体例子1、例子2、例子3\"
</format_requirements>

<example>
  <decisions>
    <decision>
      <id>temp-c,temp-d</id>
      <action>create</action>
      <description>用户寻求客户服务支持 - 包括联系客服、退货退款、问题解决等服务请求
      典型例子：怎么联系客服、我要退货、退款多久到账、怎么投诉</description>
    </decision>
    <decision>
      <id>temp-a,temp-e</id>
      <action>assign</action>
      <target_id>CAT-001</target_id>
      <description_update>用户关于订单和物流的全程关注 - 涵盖发货通知、物流追踪、配送状态、时效查询等订单履约全链路问题
      典型例子：什么时候发货、我的订单到哪了、快递什么时候到、为什么物流信息不更新、预计多久能到</description_update>
    </decision>
    <decision>
      <id>temp-b</id>
      <action>subdivide</action>
      <k_value>4</k_value>
    </decision>
    <decision>
      <id>temp-f</id>
      <action>subdivide</action>
      <k_value>3</k_value>
    </decision>
  </decisions>
</example>

Please provide your decisions now in the required <decisions> XML format:"

/-- Total number of query occurrences held in the finalized categories. -/
def categoriesQueryCount (s : GraphState) : Nat :=
  (s.categories.map (fun p => p.2.queries.length)).sum

/-- Total number of query occurrences held in the queued tasks. -/
def tasksQueryCount (s : GraphState) : Nat :=
  (s.tasks.map (fun t => t.queries.length)).sum

/-- Total number of query occurrences held in the current batch. -/
def batchQueryCount (s : GraphState) : Nat :=
  (s.clusters_list.map (fun c => c.queries.length)).sum

/-- The conserved quantity of the spec's query-conservation invariant:
`Σ |cat.queries| + Σ (queries in queued tasks) + Σ (queries in current batch)`. -/
def stateQueryCount (s : GraphState) : Nat :=
  categoriesQueryCount s + tasksQueryCount s + batchQueryCount s

/-- The cluster ids referenced by a raw `<decision>` element, as the validator
splits them: the stripped id text split on commas, each part stripped. -/
def refsOfRaw (raw : RawDecision) : List String :=
  (pySplit (pyStrip ((textOf raw.id).getD ""))).map (fun s => pyStrip s)

/-- The normalized action of a raw `<decision>` element (stripped and lowercased,
empty when the element is missing). -/
def actionNormOf (raw : RawDecision) : String :=
  pyLower (pyStrip ((textOf raw.action).getD ""))

/-- The claimed shape of the category id set: exactly the contiguous prefix
`CAT-001 … CAT-00N` (`N` the number of non-trash categories), optionally together
with `TRASH_CATEGORY`. -/
def catPrefixProperty (ids : List String) : Prop :=
  (∀ x ∈ ids, x = "TRASH_CATEGORY" ∨
    x ∈ (List.range (ids.filter (fun y => y ≠ "TRASH_CATEGORY")).length).map
      (fun i => "CAT-" ++ pad3 (i + 1))) ∧
  (∀ i ∈ List.range (ids.filter (fun y => y ≠ "TRASH_CATEGORY")).length,
    ("CAT-" ++ pad3 (i + 1)) ∈ ids)

/-- Every key of the category map is either `TRASH_CATEGORY` or a `CAT-` id whose
index is at most the map's size. All states the pipeline actually produces satisfy
this; it guarantees that the next allocated `CAT-` id is fresh. -/
def KeysBounded (m : List (String × Category)) : Prop :=
  ∀ p ∈ m, p.1 = "TRASH_CATEGORY" ∨ ∃ i, i < m.length ∧ p.1 = "CAT-" ++ pad3 (i + 1)

/-- A batch cluster carrying a well-behaved single-reference decision: the decision
refers to exactly this cluster, and its action is a recognized verb with a usable
payload (an existing assign target, a nonzero subdivide `k_value`). -/
def GoodCluster (s : GraphState) (c : Cluster) : Prop :=
  ∃ d, c.judge = some d ∧ parse_cluster_ids d.id = [c.id] ∧
    (pyLower d.action = "create" ∨
      (pyLower d.action = "assign" ∧
        ∃ t, d.target_id = some t ∧ t ≠ "" ∧ (lookupCat s.categories t).isSome) ∨
      (pyLower d.action = "subdivide" ∧ ∃ k, d.k_value = some k ∧ k ≠ 0))

/-- A small concrete query used by the concrete runs below. -/
def exQuery (i : Nat) : Query :=
  { id := "q" ++ toString i, content := "content" ++ toString i, embedding := [] }

/-- A concrete sampler standing in for `_extract_samples` (all contents). -/
def exExtract : List Query → List String :=
  fun qs => qs.map (fun q => q.content)

/-- Two concrete queries. -/
def exQueries2 : List Query := [exQuery 1, exQuery 2]

/-- A validated multi-reference `create` decision over two batch clusters. -/
def exCreateDecision : Decision :=
  { id := "cluster-1,cluster-2", action := "create", description := some "D" }

/-- The state right before dispatch in a run over two queries whose single batch
carries one `create` decision referencing both clusters: initialization, one
partitioner step (identity labelling, two singleton clusters) and one reviewer
step attaching the decision. -/
def exMultiRefState : GraphState :=
  reviewer_node [exCreateDecision]
    (clusterer_node (fun i => i) exExtract 0 (runInitialState exQueries2 2 none))

/-- The same run after the dispatcher executes the batch. -/
def exMultiRefDispatched : GraphState := dispatcher_node exMultiRefState

/-- Eleven concrete queries (`min_cluster_size` of the run is 10). -/
def exQueries11 : List Query := (List.range 11).map exQuery

/-- Labelling that isolates the first query from the other ten. -/
def exLabels01 : Nat → Nat := fun i => if i = 0 then 0 else 1

/-- A run over eleven queries: the first batch routes a 1-query cluster to
`TRASH_CATEGORY` (`subdivide` below the floor) and re-queues the 10-query
cluster; the second batch creates a category. -/
def c3AfterFirstDispatch : GraphState :=
  dispatcher_node
    (reviewer_node
      [{ id := "cluster-1", action := "subdivide", k_value := some 2 },
       { id := "cluster-2", action := "subdivide", k_value := some 1 }]
      (clusterer_node exLabels01 exExtract 0 (runInitialState exQueries11 2 none)))

/-- The same run after the second loop iteration creates a category: its id is
allocated as `CAT-002` because the map already holds `TRASH_CATEGORY`. -/
def c3AfterSecondDispatch : GraphState :=
  dispatcher_node
    (reviewer_node [{ id := "cluster-3", action := "create", description := some "D" }]
      (clusterer_node (fun _ => 0) exExtract 2 c3AfterFirstDispatch))

/-- A query with different content and a different (non-empty) embedding, used to
show the prompt ignores category query contents. -/
def exQueryE : Query :=
  { id := "qe", content := "completely different content", embedding := [(1 : Rat)] }

/-- A category list whose single category holds `exQuery 1`. -/
def c8Cats1 : List Category :=
  [{ id := "CAT-001", description := "D", queries := [exQuery 1], samples := [] }]

/-- The same category display data but with a different stored query. -/
def c8Cats2 : List Category :=
  [{ id := "CAT-001", description := "D", queries := [exQueryE], samples := [] }]

/-- A batch cluster judged `subdivide` with the (validated) integer `k_value` 0. -/
def c10Cluster : Cluster :=
  { id := "cluster-1", queries := [exQuery 1], samples := [],
    judge := some { id := "cluster-1", action := "subdivide", k_value := some 0 } }

/-- A state whose only batch cluster carries the zero-`k_value` subdivide. -/
def c10State : GraphState :=
  { tasks := [], categories := [], clusters_list := [c10Cluster],
    dataset_name := none, total_queries := 1, min_cluster_size := 10 }

/-- A batch cluster carrying a single-reference `create` decision for itself. -/
def exGoodCluster : Cluster :=
  { id := "cluster-1", queries := [exQuery 1], samples := [],
    judge := some { id := "cluster-1", action := "create", description := some "D" } }

/-- A one-cluster state whose decision is single-reference and well-formed. -/
def c2WitnessState : GraphState :=
  { tasks := [], categories := [], clusters_list := [exGoodCluster],
    dataset_name := none, total_queries := 1, min_cluster_size := 10 }

/-- A state holding only a batch with one small cluster judged `subdivide`. -/
def c4State0 : GraphState :=
  { tasks := [], categories := [], clusters_list :=
      [{ id := "cluster-1", queries := [exQuery 1], samples := ["s1"],
         judge := some { id := "cluster-1", action := "subdivide", k_value := some 2 } }],
    dataset_name := none, total_queries := 11, min_cluster_size := 10 }

/-- After dispatching the first small cluster: `TRASH_CATEGORY` is created and
seeded with that cluster's samples. -/
def c4State1 : GraphState := dispatcher_node c4State0

/-- The `subdivide` decision attached to the second small cluster. -/
def c4SecondDecision : Decision :=
  { id := "cluster-2", action := "subdivide", k_value := some 2 }

/-- A second small cluster, reviewed after `TRASH_CATEGORY` already exists. -/
def c4SecondCluster : Cluster :=
  { id := "cluster-2", queries := [exQuery 2], samples := ["s2"],
    judge := some c4SecondDecision }

/-- The next batch: the second small cluster dispatched while `TRASH_CATEGORY`
already exists. -/
def c4State2 : GraphState :=
  dispatcher_node { c4State1 with clusters_list := [c4SecondCluster] }

theorem digitChar_toNat_sub (d : Nat) (hd : d < 10) : (Nat.digitChar d).toNat - 48 = d := by
  interval_cases d <;> rfl

theorem digitsToNatChars_append (l : List Char) (c : Char) :
    digitsToNatChars (l ++ [c]) = digitsToNatChars l * 10 + (c.toNat - 48) := by
  simp [digitsToNatChars, List.foldl_append]

theorem toDecimalAux_val : ∀ fuel n : Nat, n ≤ fuel →
    digitsToNatChars (toDecimalAux fuel n) = n := by
  intro fuel
  induction fuel with
  | zero =>
    intro n hn
    interval_cases n
    rfl
  | succ fuel ih =>
    intro n hn
    by_cases h0 : n = 0
    · subst h0
      rfl
    · rw [toDecimalAux, if_neg h0, digitsToNatChars_append, ih (n / 10) (by omega),
        digitChar_toNat_sub (n % 10) (Nat.mod_lt _ (by norm_num))]
      omega

theorem decimalDigits_val (n : Nat) : digitsToNatChars (decimalDigits n) = n :=
  toDecimalAux_val n n le_rfl

theorem digitsToNatChars_replicate_zero (k : Nat) (l : List Char) :
    digitsToNatChars (List.replicate k '0' ++ l) = digitsToNatChars l := by
  induction k with
  | zero => rfl
  | succ k ih =>
    rw [List.replicate_succ, List.cons_append]
    exact ih

theorem pad3_val (n : Nat) : digitsToNatChars (pad3 n).data = n := by
  show digitsToNatChars (List.replicate (3 - (decimalDigits n).length) '0' ++ decimalDigits n) = n
  rw [digitsToNatChars_replicate_zero, decimalDigits_val]

theorem pad3_injective {a b : Nat} (h : pad3 a = pad3 b) : a = b := by
  have h2 := congrArg (fun s => digitsToNatChars s.data) h
  simpa [pad3_val] using h2

theorem catId_injective {a b : Nat} (h : "CAT-" ++ pad3 a = "CAT-" ++ pad3 b) : a = b := by
  apply pad3_injective
  have h2 := congrArg String.data h
  rw [String.data_append, String.data_append] at h2
  exact String.ext (List.append_cancel_left h2)

theorem trash_ne_catId (x : Nat) : ("TRASH_CATEGORY" : String) ≠ "CAT-" ++ pad3 x := by
  intro h
  have h2 := congrArg String.data h
  rw [String.data_append] at h2
  have h3 : (some 'T' : Option Char) = some 'C' := congrArg List.head? h2
  simp at h3

theorem lookupCat_eq_none_iff (m : List (String × Category)) (k : String) :
    lookupCat m k = none ↔ ∀ p ∈ m, p.1 ≠ k := by
  simp [lookupCat, List.find?_eq_none]

theorem lookupCat_isSome_iff (m : List (String × Category)) (k : String) :
    (lookupCat m k).isSome ↔ ∃ p ∈ m, p.1 = k := by
  simp [lookupCat, List.find?_isSome]

theorem dictInsert_any_true (m : List (String × Category)) (k : String) (v : Category)
    (h : m.any (fun p => p.1 = k) = true) :
    dictInsert m k v = m.map (fun p => if p.1 = k then (k, v) else p) := by
  simp [dictInsert, h]

theorem dictInsert_any_false (m : List (String × Category)) (k : String) (v : Category)
    (h : m.any (fun p => p.1 = k) = false) :
    dictInsert m k v = m ++ [(k, v)] := by
  simp [dictInsert, h]

theorem any_key_iff_lookup (m : List (String × Category)) (k : String) :
    m.any (fun p => p.1 = k) = true ↔ (lookupCat m k).isSome := by
  rw [lookupCat_isSome_iff]
  simp

theorem map_replace_id (m : List (String × Category)) (k : String) (v : Category)
    (h : ∀ p ∈ m, p.1 ≠ k) :
    m.map (fun p => if p.1 = k then (k, v) else p) = m := by
  rw [List.map_congr_left (g := id) (fun p hp => by simp [h p hp])]
  exact List.map_id m

theorem lookupCat_map_replace_self (m : List (String × Category)) (k : String)
    (v : Category) (h : ∃ p ∈ m, p.1 = k) :
    lookupCat (m.map (fun p => if p.1 = k then (k, v) else p)) k = some v := by
  induction m with
  | nil => simp at h
  | cons hd tl ih =>
    by_cases hk : hd.1 = k
    · simp [lookupCat, List.find?, hk]
    · have h2 : ∃ p ∈ tl, p.1 = k := by
        rcases h with ⟨p, hp, hpk⟩
        rcases List.mem_cons.mp hp with hp | hp
        · exact absurd (hp ▸ hpk) hk
        · exact ⟨p, hp, hpk⟩
      simpa [lookupCat, List.find?, hk] using ih h2

theorem lookupCat_map_replace_other (m : List (String × Category)) (k t : String)
    (v : Category) (h : t ≠ k) :
    lookupCat (m.map (fun p => if p.1 = k then (k, v) else p)) t = lookupCat m t := by
  induction m with
  | nil => rfl
  | cons hd tl ih =>
    by_cases hk : hd.1 = k
    · have hkt : ¬ (k = t) := fun hh => h hh.symm
      have hht : ¬ (hd.1 = t) := by
        rw [hk]
        exact hkt
      simpa [lookupCat, List.find?, hk, hkt, hht] using ih
    · by_cases hht : hd.1 = t
      · simp [lookupCat, List.find?, hk, hht, h]
      · simpa [lookupCat, List.find?, hk, hht] using ih

theorem lookupCat_append_single_self (m : List (String × Category)) (k : String)
    (v : Category) (h : ∀ p ∈ m, p.1 ≠ k) :
    lookupCat (m ++ [(k, v)]) k = some v := by
  induction m with
  | nil => simp [lookupCat, List.find?]
  | cons hd tl ih =>
    have hhd : ¬ (hd.1 = k) := h hd (by simp)
    simpa [lookupCat, List.find?, hhd] using ih (fun p hp => h p (by simp [hp]))

theorem lookupCat_append_single_other (m : List (String × Category)) (k t : String)
    (v : Category) (h : t ≠ k) :
    lookupCat (m ++ [(k, v)]) t = lookupCat m t := by
  induction m with
  | nil =>
    have : ¬ (k = t) := fun hh => h hh.symm
    simp [lookupCat, List.find?, this]
  | cons hd tl ih =>
    by_cases hht : hd.1 = t
    · simp [lookupCat, List.find?, hht]
    · simpa [lookupCat, List.find?, hht] using ih

theorem lookupCat_dictInsert_self (m : List (String × Category)) (k : String)
    (v : Category) : lookupCat (dictInsert m k v) k = some v := by
  by_cases h : m.any (fun p => p.1 = k) = true
  · rw [dictInsert_any_true m k v h]
    apply lookupCat_map_replace_self
    simpa using h
  · have h2 : m.any (fun p => p.1 = k) = false := by
      simpa [Bool.eq_false_iff] using h
    rw [dictInsert_any_false m k v h2]
    apply lookupCat_append_single_self
    intro p hp
    have := List.any_eq_false.mp h2 p hp
    simpa using this

theorem lookupCat_dictInsert_other (m : List (String × Category)) (k t : String)
    (v : Category) (h : t ≠ k) :
    lookupCat (dictInsert m k v) t = lookupCat m t := by
  by_cases hany : m.any (fun p => p.1 = k) = true
  · rw [dictInsert_any_true m k v hany]
    exact lookupCat_map_replace_other m k t v h
  · have h2 : m.any (fun p => p.1 = k) = false := by
      simpa [Bool.eq_false_iff] using hany
    rw [dictInsert_any_false m k v h2]
    exact lookupCat_append_single_other m k t v h

theorem keys_dictInsert_present (m : List (String × Category)) (k : String)
    (v : Category) (h : (lookupCat m k).isSome) :
    (dictInsert m k v).map (fun p => p.1) = m.map (fun p => p.1) := by
  rw [dictInsert_any_true m k v ((any_key_iff_lookup m k).mpr h), List.map_map]
  apply List.map_congr_left
  intro p _
  by_cases hk : p.1 = k
  · simp [hk]
  · simp [hk]

theorem keys_dictInsert_absent (m : List (String × Category)) (k : String)
    (v : Category) (h : lookupCat m k = none) :
    (dictInsert m k v).map (fun p => p.1) = m.map (fun p => p.1) ++ [k] := by
  have h2 : m.any (fun p => p.1 = k) = false := by
    rw [List.any_eq_false]
    intro p hp
    have := (lookupCat_eq_none_iff m k).mp h p hp
    simpa using this
  rw [dictInsert_any_false m k v h2]
  simp

theorem keys_nodup_dictInsert (m : List (String × Category)) (k : String)
    (v : Category) (h : (m.map (fun p => p.1)).Nodup) :
    ((dictInsert m k v).map (fun p => p.1)).Nodup := by
  cases hlk : lookupCat m k with
  | none =>
    rw [keys_dictInsert_absent m k v hlk]
    rw [List.nodup_append]
    refine ⟨h, by simp, ?_⟩
    intro a ha hmem
    rw [List.mem_singleton] at hmem
    rcases List.mem_map.mp ha with ⟨p, hp, hpk⟩
    exact (lookupCat_eq_none_iff m k).mp hlk p hp (by rw [hpk, hmem])
  | some cat =>
    rw [keys_dictInsert_present m k v (by simp [hlk])]
    exact h

theorem sum_map_replace (m : List (String × Category)) (k : String) (v cat : Category)
    (hnd : (m.map (fun p => p.1)).Nodup) (h : lookupCat m k = some cat) :
    ((m.map (fun p => if p.1 = k then (k, v) else p)).map
        (fun p => p.2.queries.length)).sum + cat.queries.length
      = (m.map (fun p => p.2.queries.length)).sum + v.queries.length := by
  induction m with
  | nil => simp [lookupCat] at h
  | cons hd tl ih =>
    rw [List.map_cons, List.nodup_cons] at hnd
    by_cases hk : hd.1 = k
    · have hcat : cat = hd.2 := by
        simp [lookupCat, List.find?, hk] at h
        exact h.symm
      have htl : tl.map (fun p => if p.1 = k then (k, v) else p) = tl := by
        apply map_replace_id
        intro p hp hpk
        apply hnd.1
        rw [hk]
        have hmem : p.1 ∈ tl.map (fun q => q.1) := List.mem_map_of_mem (fun q => q.1) hp
        rwa [hpk] at hmem
      subst hcat
      simp only [List.map_cons, if_pos hk, htl, List.sum_cons]
      omega
    · have hlk : lookupCat tl k = some cat := by
        simpa [lookupCat, List.find?, hk] using h
      have := ih hnd.2 hlk
      simp only [List.map_cons, if_neg hk, List.sum_cons]
      omega

theorem sum_dictInsert_of_lookup (m : List (String × Category)) (k : String)
    (v cat : Category) (hnd : (m.map (fun p => p.1)).Nodup)
    (h : lookupCat m k = some cat) :
    ((dictInsert m k v).map (fun p => p.2.queries.length)).sum + cat.queries.length
      = (m.map (fun p => p.2.queries.length)).sum + v.queries.length := by
  rw [dictInsert_any_true m k v ((any_key_iff_lookup m k).mpr (by simp [h]))]
  exact sum_map_replace m k v cat hnd h

theorem sum_dictInsert_absent (m : List (String × Category)) (k : String)
    (v : Category) (h : lookupCat m k = none) :
    ((dictInsert m k v).map (fun p => p.2.queries.length)).sum
      = (m.map (fun p => p.2.queries.length)).sum + v.queries.length := by
  have h2 : m.any (fun p => p.1 = k) = false := by
    rw [List.any_eq_false]
    intro p hp
    have := (lookupCat_eq_none_iff m k).mp h p hp
    simpa using this
  rw [dictInsert_any_false m k v h2]
  simp

theorem clusterMapFold_acc_of_not_mem (B : List Cluster) (cid : String) :
    ∀ acc : Option Cluster, (∀ c ∈ B, c.id ≠ cid) →
    B.foldl (fun acc c => if c.id = cid then some c else acc) acc = acc := by
  induction B with
  | nil => intro acc _; rfl
  | cons b tl ih =>
    intro acc h
    rw [List.foldl_cons, if_neg (h b (by simp))]
    exact ih acc (fun c hc => h c (by simp [hc]))

theorem clusterMapLookup_self (B : List Cluster) (c : Cluster)
    (hnd : (B.map (fun x => x.id)).Nodup) (hc : c ∈ B) :
    clusterMapLookup B c.id = some c := by
  have main : ∀ acc : Option Cluster,
      B.foldl (fun acc x => if x.id = c.id then some x else acc) acc = some c := by
    induction B with
    | nil => simp at hc
    | cons b tl ih =>
      intro acc
      rw [List.map_cons, List.nodup_cons] at hnd
      by_cases hb : b.id = c.id
      · have hcb : c = b := by
          rcases List.mem_cons.mp hc with hcb | hctl
          · exact hcb
          · exact absurd (hb ▸ List.mem_map_of_mem (fun x => x.id) hctl) hnd.1
        rw [List.foldl_cons, if_pos hb]
        subst hcb
        exact clusterMapFold_acc_of_not_mem tl c.id (some c)
          (fun x hx hxid => hnd.1 (hxid ▸ List.mem_map_of_mem (fun y => y.id) hx))
      · have hctl : c ∈ tl := by
          rcases List.mem_cons.mp hc with hcb | hctl
          · exact absurd (congrArg Cluster.id hcb.symm) hb
          · exact hctl
        rw [List.foldl_cons, if_neg hb]
        exact ih hnd.2 hctl _
  exact main none

theorem get_clusters_by_ids_self (B : List Cluster) (c : Cluster)
    (hnd : (B.map (fun x => x.id)).Nodup) (hc : c ∈ B) :
    get_clusters_by_ids B [c.id] = [c] := by
  simp [get_clusters_by_ids, clusterMapLookup_self B c hnd hc]

theorem flatten_filter_nonempty {α : Type} (L : List (List α)) :
    (L.filter (fun g => !g.isEmpty)).flatten = L.flatten := by
  induction L with
  | nil => rfl
  | cons g tl ih =>
    by_cases hg : g = []
    · subst hg
      simpa [List.filter_cons] using ih
    · have : g.isEmpty = false := by
        simpa [List.isEmpty_iff] using hg
      simp [List.filter_cons, this, ih]

theorem flatten_groups_perm (labels : Nat → Nat) :
    ∀ (kv : Nat) (lp : List (Nat × Query)), (∀ p ∈ lp, labels p.1 < kv) →
    List.Perm
      (((List.range kv).map
        (fun i => (lp.filter (fun p => labels p.1 = i)).map (fun p => p.2))).flatten)
      (lp.map (fun p => p.2)) := by
  intro kv
  induction kv with
  | zero =>
    intro lp h
    cases lp with
    | nil => simp
    | cons p tl => exact absurd (h p (by simp)) (by omega)
  | succ kv ih =>
    intro lp h
    rw [List.range_succ, List.map_append, List.flatten_append]
    have hA : (List.range kv).map
          (fun i => (lp.filter (fun p => labels p.1 = i)).map (fun p => p.2))
        = (List.range kv).map
          (fun i => (((lp.filter (fun p => ¬ labels p.1 = kv)).filter
            (fun p => labels p.1 = i)).map (fun p => p.2))) := by
      apply List.map_congr_left
      intro i hi
      have hik : i ≠ kv := by
        have := List.mem_range.mp hi
        omega
      congr 1
      rw [List.filter_filter]
      apply (List.filter_congr ?_).symm
      intro a _
      by_cases hla : labels a.1 = i
      · have : ¬ labels a.1 = kv := fun hh => hik (by omega)
        simp [hla, this, hik]
      · simp [hla]
    have hlp' : ∀ p ∈ lp.filter (fun p => ¬ labels p.1 = kv), labels p.1 < kv := by
      intro p hp
      have hmem := List.mem_filter.mp hp
      have h1 := h p hmem.1
      have h2 : ¬ labels p.1 = kv := by simpa using hmem.2
      omega
    have hIH := ih (lp.filter (fun p => ¬ labels p.1 = kv)) hlp'
    rw [hA]
    have hlast : (lp.filter (fun p => labels p.1 = kv))
        = lp.filter (fun a => !(fun p => decide (¬ labels p.1 = kv)) a) := by
      apply List.filter_congr
      intro a _
      simp [decide_not]
    have hB : (List.map (fun i => (lp.filter (fun p => labels p.1 = i)).map (fun p => p.2))
          [kv]).flatten
        = (lp.filter (fun p => labels p.1 = kv)).map (fun p => p.2) := by
      simp
    rw [hB]
    refine List.Perm.trans (List.Perm.append hIH (List.Perm.refl _)) ?_
    rw [← List.map_append]
    apply List.Perm.map
    rw [hlast]
    exact List.filter_append_perm _ lp

theorem mem_enum_fst_lt {α : Type} (l : List α) (p : Nat × α) (hp : p ∈ l.enum) :
    p.1 < l.length := by
  rcases List.getElem?_eq_some_iff.mp (List.mem_enum_iff_getElem?.mp hp) with ⟨hlt, _⟩
  exact hlt

theorem snd_mem_of_mem_enum {α : Type} (l : List α) (p : Nat × α) (hp : p ∈ l.enum) :
    p.2 ∈ l := by
  have := List.mem_map_of_mem Prod.snd hp
  rwa [List.enum_map_snd] at this

theorem perform_clustering_queries_perm (queries : List Query) (k_value : Int)
    (labels : Nat → Nat) (extract_samples : List Query → List String)
    (cluster_counter : Nat)
    (h : ∀ i, i < queries.length → labels i < clampedK queries k_value) :
    List.Perm
      (((perform_clustering queries k_value labels extract_samples cluster_counter).map
        (fun c => c.queries)).flatten)
      queries := by
  by_cases hq : queries = []
  · subst hq
    simp [perform_clustering]
  · have henum : ∀ p ∈ queries.enum, labels p.1 < clampedK queries k_value := by
      intro p hp
      exact h p.1 (mem_enum_fst_lt queries p hp)
    have hperm := flatten_groups_perm labels (clampedK queries k_value) queries.enum henum
    rw [List.enum_map_snd] at hperm
    simp only [perform_clustering, if_neg hq]
    have hmapq : ∀ (L : List (List Query)),
        ((L.enum.map (fun p =>
            ({ id := "cluster-" ++ toString (cluster_counter + p.1 + 1),
               queries := p.2, samples := extract_samples p.2, judge := none } : Cluster))).map
          (fun c => c.queries)) = L := by
      intro L
      rw [List.map_map]
      exact List.enum_map_snd L
    rw [hmapq]
    rw [flatten_filter_nonempty]
    exact hperm

theorem perform_clustering_mem (queries : List Query) (k_value : Int)
    (labels : Nat → Nat) (extract_samples : List Query → List String)
    (cluster_counter : Nat) (c : Cluster)
    (hc : c ∈ perform_clustering queries k_value labels extract_samples cluster_counter) :
    c.queries ≠ [] ∧ c.judge = none := by
  by_cases hq : queries = []
  · subst hq
    simp [perform_clustering] at hc
  · simp only [perform_clustering, if_neg hq] at hc
    rcases List.mem_map.mp hc with ⟨p, hp, hpc⟩
    have hqueries : c.queries = p.2 := by rw [← hpc]
    have hjudge : c.judge = none := by rw [← hpc]
    refine ⟨?_, hjudge⟩
    rw [hqueries]
    have hpmem := snd_mem_of_mem_enum _ p hp
    have := (List.mem_filter.mp hpmem).2
    simpa [List.isEmpty_iff] using this

theorem clampedK_of_lt (queries : List Query) (k_value : Int)
    (h : (queries.length : Int) < k_value) :
    clampedK queries k_value = queries.length := by
  simp [clampedK, h]

theorem perform_clustering_clamps (queries : List Query) (k_value : Int)
    (labels : Nat → Nat) (extract_samples : List Query → List String)
    (cluster_counter : Nat) (h : (queries.length : Int) < k_value) :
    perform_clustering queries k_value labels extract_samples cluster_counter
      = perform_clustering queries (queries.length : Int) labels extract_samples
          cluster_counter := by
  have h1 : clampedK queries k_value = clampedK queries (queries.length : Int) := by
    rw [clampedK_of_lt queries k_value h]
    simp [clampedK]
  simp only [perform_clustering, h1]

theorem create_tool_frame (s : GraphState) (cs : List Cluster) (d : String) :
    (create_new_category_tool s cs d).tasks = s.tasks ∧
    (create_new_category_tool s cs d).clusters_list = s.clusters_list ∧
    (create_new_category_tool s cs d).dataset_name = s.dataset_name ∧
    (create_new_category_tool s cs d).total_queries = s.total_queries ∧
    (create_new_category_tool s cs d).min_cluster_size = s.min_cluster_size := by
  simp [create_new_category_tool]

theorem assign_tool_frame (s : GraphState) (c : Cluster) (t du : String) :
    (assign_to_existing_tool s c t du).tasks = s.tasks ∧
    (assign_to_existing_tool s c t du).clusters_list = s.clusters_list ∧
    (assign_to_existing_tool s c t du).dataset_name = s.dataset_name ∧
    (assign_to_existing_tool s c t du).total_queries = s.total_queries ∧
    (assign_to_existing_tool s c t du).min_cluster_size = s.min_cluster_size := by
  cases hl : lookupCat s.categories t <;> simp [assign_to_existing_tool, hl]

theorem subdivide_tool_frame (s : GraphState) (c : Cluster) (k : Int) (mcs : Nat) :
    (subdivide_task_tool s c k mcs).clusters_list = s.clusters_list ∧
    (subdivide_task_tool s c k mcs).dataset_name = s.dataset_name ∧
    (subdivide_task_tool s c k mcs).total_queries = s.total_queries ∧
    (subdivide_task_tool s c k mcs).min_cluster_size = s.min_cluster_size := by
  unfold subdivide_task_tool
  by_cases hsmall : c.queries.length < mcs
  · simp only [if_pos hsmall]
    by_cases htrash : lookupCat s.categories "TRASH_CATEGORY" = none
    · simp only [if_pos htrash]
      split <;> simp
    · simp only [if_neg htrash]
      split <;> simp
  · simp [if_neg hsmall]

theorem handle_create_frame (s : GraphState) (d : Decision) :
    (_handle_create_action s d).tasks = s.tasks ∧
    (_handle_create_action s d).clusters_list = s.clusters_list ∧
    (_handle_create_action s d).dataset_name = s.dataset_name ∧
    (_handle_create_action s d).total_queries = s.total_queries ∧
    (_handle_create_action s d).min_cluster_size = s.min_cluster_size := by
  unfold _handle_create_action
  by_cases he : get_clusters_by_ids s.clusters_list (parse_cluster_ids d.id) = []
  · simp [he]
  · simp only [if_neg he]
    exact create_tool_frame s _ _

theorem assign_fold_frame (s : GraphState) (cs : List Cluster) (t : String) :
    (cs.foldl (fun st c => assign_to_existing_tool st c t "no_update") s).tasks = s.tasks ∧
    (cs.foldl (fun st c => assign_to_existing_tool st c t "no_update") s).clusters_list
      = s.clusters_list ∧
    (cs.foldl (fun st c => assign_to_existing_tool st c t "no_update") s).dataset_name
      = s.dataset_name ∧
    (cs.foldl (fun st c => assign_to_existing_tool st c t "no_update") s).total_queries
      = s.total_queries ∧
    (cs.foldl (fun st c => assign_to_existing_tool st c t "no_update") s).min_cluster_size
      = s.min_cluster_size := by
  induction cs generalizing s with
  | nil => simp
  | cons c tl ih =>
    rw [List.foldl_cons]
    have h1 := assign_tool_frame s c t "no_update"
    have h2 := ih (assign_to_existing_tool s c t "no_update")
    exact ⟨h2.1.trans h1.1, h2.2.1.trans h1.2.1, h2.2.2.1.trans h1.2.2.1,
      h2.2.2.2.1.trans h1.2.2.2.1, h2.2.2.2.2.trans h1.2.2.2.2⟩

theorem handle_assign_frame (s : GraphState) (d : Decision) :
    (_handle_assign_action s d).clusters_list = s.clusters_list ∧
    (_handle_assign_action s d).tasks = s.tasks ∧
    (_handle_assign_action s d).dataset_name = s.dataset_name ∧
    (_handle_assign_action s d).total_queries = s.total_queries ∧
    (_handle_assign_action s d).min_cluster_size = s.min_cluster_size := by
  unfold _handle_assign_action
  by_cases he : get_clusters_by_ids s.clusters_list (parse_cluster_ids d.id) = []
  · simp [he]
  · simp only [if_neg he]
    cases htg : d.target_id with
    | none => simp
    | some t =>
      by_cases ht0 : t = ""
      · simp [ht0]
      · simp only [if_neg ht0]
        have hfold := assign_fold_frame s
          (get_clusters_by_ids s.clusters_list (parse_cluster_ids d.id)) t
        by_cases hdu : d.description_update.getD "no_update" ≠ "no_update"
        · simp only [if_pos hdu]
          split
          · exact ⟨hfold.2.1, hfold.1, hfold.2.2.1, hfold.2.2.2.1, hfold.2.2.2.2⟩
          · exact ⟨hfold.2.1, hfold.1, hfold.2.2.1, hfold.2.2.2.1, hfold.2.2.2.2⟩
        · simp only [if_neg hdu]
          exact ⟨hfold.2.1, hfold.1, hfold.2.2.1, hfold.2.2.2.1, hfold.2.2.2.2⟩

theorem handle_subdivide_frame (s : GraphState) (c : Cluster) (d : Decision)
    (mcs : Nat) :
    (_handle_subdivide_action s c d mcs).clusters_list = s.clusters_list ∧
    (_handle_subdivide_action s c d mcs).dataset_name = s.dataset_name ∧
    (_handle_subdivide_action s c d mcs).total_queries = s.total_queries ∧
    (_handle_subdivide_action s c d mcs).min_cluster_size = s.min_cluster_size := by
  unfold _handle_subdivide_action
  cases hk : d.k_value with
  | none => simp
  | some k =>
    by_cases hk0 : k = 0
    · simp [hk0]
    · simp only [if_neg hk0]
      exact subdivide_tool_frame s c k mcs

theorem processCluster_frame (s : GraphState) (c : Cluster) :
    (processCluster s c).clusters_list = s.clusters_list ∧
    (processCluster s c).dataset_name = s.dataset_name ∧
    (processCluster s c).total_queries = s.total_queries ∧
    (processCluster s c).min_cluster_size = s.min_cluster_size := by
  unfold processCluster
  cases hj : c.judge with
  | none => simp
  | some d =>
    by_cases h1 : pyLower d.action = "create"
    · simp only [if_pos h1]
      have h := handle_create_frame s d
      exact ⟨h.2.1, h.2.2.1, h.2.2.2.1, h.2.2.2.2⟩
    · simp only [if_neg h1]
      by_cases h2 : pyLower d.action = "assign"
      · simp only [if_pos h2]
        have h := handle_assign_frame s d
        exact ⟨h.1, h.2.2.1, h.2.2.2.1, h.2.2.2.2⟩
      · simp only [if_neg h2]
        by_cases h3 : pyLower d.action = "subdivide"
        · simp only [if_pos h3]
          exact handle_subdivide_frame s c d s.min_cluster_size
        · simp [if_neg h3]

theorem foldl_processCluster_frame (cs : List Cluster) (s : GraphState) :
    (cs.foldl processCluster s).clusters_list = s.clusters_list ∧
    (cs.foldl processCluster s).dataset_name = s.dataset_name ∧
    (cs.foldl processCluster s).total_queries = s.total_queries ∧
    (cs.foldl processCluster s).min_cluster_size = s.min_cluster_size := by
  induction cs generalizing s with
  | nil => simp
  | cons c tl ih =>
    rw [List.foldl_cons]
    have h1 := processCluster_frame s c
    have h2 := ih (processCluster s c)
    exact ⟨h2.1.trans h1.1, h2.2.1.trans h1.2.1, h2.2.2.1.trans h1.2.2.1,
      h2.2.2.2.trans h1.2.2.2⟩

theorem dictInsert_absent_eq (m : List (String × Category)) (k : String) (v : Category)
    (h : lookupCat m k = none) : dictInsert m k v = m ++ [(k, v)] := by
  apply dictInsert_any_false
  rw [List.any_eq_false]
  intro p hp
  simpa using (lookupCat_eq_none_iff m k).mp h p hp

theorem keysBounded_of_keys_eq (m m2 : List (String × Category))
    (hk : m2.map (fun p => p.1) = m.map (fun p => p.1)) (hkb : KeysBounded m) :
    KeysBounded m2 := by
  intro p hp
  have hlen : m2.length = m.length := by
    have := congrArg List.length hk
    simpa using this
  have hpk : p.1 ∈ m.map (fun p => p.1) := by
    rw [← hk]
    exact List.mem_map_of_mem (fun p => p.1) hp
  rcases List.mem_map.mp hpk with ⟨q, hq, hqk⟩
  rcases hkb q hq with h | ⟨i, hi, hcat⟩
  · left
    rw [← hqk, h]
  · right
    refine ⟨i, by rw [hlen]; exact hi, by rw [← hqk, hcat]⟩

theorem keysBounded_fresh (m : List (String × Category)) (hkb : KeysBounded m) :
    lookupCat m ("CAT-" ++ pad3 (m.length + 1)) = none := by
  rw [lookupCat_eq_none_iff]
  intro p hp hpk
  rcases hkb p hp with h | ⟨i, hi, hcat⟩
  · exact trash_ne_catId (m.length + 1) (by rw [← h, hpk])
  · have := catId_injective (hcat.symm.trans hpk)
    omega

theorem keysBounded_append_cat (m : List (String × Category)) (v : Category)
    (hkb : KeysBounded m) :
    KeysBounded (m ++ [("CAT-" ++ pad3 (m.length + 1), v)]) := by
  intro p hp
  rcases List.mem_append.mp hp with hp | hp
  · rcases hkb p hp with h | ⟨i, hi, hcat⟩
    · left
      exact h
    · right
      exact ⟨i, by simp; omega, hcat⟩
  · right
    refine ⟨m.length, by simp, ?_⟩
    rw [List.mem_singleton] at hp
    rw [hp]

theorem keysBounded_append_trash (m : List (String × Category)) (v : Category)
    (hkb : KeysBounded m) :
    KeysBounded (m ++ [("TRASH_CATEGORY", v)]) := by
  intro p hp
  rcases List.mem_append.mp hp with hp | hp
  · rcases hkb p hp with h | ⟨i, hi, hcat⟩
    · left
      exact h
    · right
      exact ⟨i, by simp; omega, hcat⟩
  · left
    rw [List.mem_singleton] at hp
    rw [hp]

theorem lookup_dictInsert_isSome_mono (m : List (String × Category)) (k : String)
    (v : Category) (t : String) (h : (lookupCat m t).isSome) :
    (lookupCat (dictInsert m k v) t).isSome := by
  by_cases ht : t = k
  · subst ht
    rw [lookupCat_dictInsert_self]
    rfl
  · rw [lookupCat_dictInsert_other m k t v ht]
    exact h

theorem create_tool_effect (s : GraphState) (cs : List Cluster) (desc : String)
    (hknd : (s.categories.map (fun p => p.1)).Nodup) (hkb : KeysBounded s.categories) :
    ((create_new_category_tool s cs desc).categories.map
        (fun p => p.2.queries.length)).sum
      = (s.categories.map (fun p => p.2.queries.length)).sum
        + (cs.flatMap (fun c => c.queries)).length ∧
    ((create_new_category_tool s cs desc).categories.map (fun p => p.1)).Nodup ∧
    KeysBounded (create_new_category_tool s cs desc).categories ∧
    (∀ t, (lookupCat s.categories t).isSome →
      (lookupCat (create_new_category_tool s cs desc).categories t).isSome) := by
  have hfresh := keysBounded_fresh s.categories hkb
  have hcats : (create_new_category_tool s cs desc).categories
      = dictInsert s.categories ("CAT-" ++ pad3 (s.categories.length + 1))
        { id := "CAT-" ++ pad3 (s.categories.length + 1), description := desc,
          queries := cs.flatMap (fun c => c.queries),
          samples := (cs.flatMap (fun c => c.samples)).take max_samples_per_cluster } := rfl
  refine ⟨?_, ?_, ?_, ?_⟩
  · rw [hcats, sum_dictInsert_absent _ _ _ hfresh]
  · rw [hcats]
    exact keys_nodup_dictInsert _ _ _ hknd
  · rw [hcats, dictInsert_absent_eq _ _ _ hfresh]
    exact keysBounded_append_cat s.categories _ hkb
  · intro t ht
    rw [hcats]
    exact lookup_dictInsert_isSome_mono _ _ _ _ ht

theorem assign_tool_noUpdate_effect (s : GraphState) (c : Cluster) (t : String)
    (cat : Category) (hknd : (s.categories.map (fun p => p.1)).Nodup)
    (hcat : lookupCat s.categories t = some cat) :
    ((assign_to_existing_tool s c t "no_update").categories.map
        (fun p => p.2.queries.length)).sum
      = (s.categories.map (fun p => p.2.queries.length)).sum + c.queries.length ∧
    (assign_to_existing_tool s c t "no_update").categories.map (fun p => p.1)
      = s.categories.map (fun p => p.1) ∧
    ((assign_to_existing_tool s c t "no_update").categories.map (fun p => p.1)).Nodup ∧
    (KeysBounded s.categories →
      KeysBounded (assign_to_existing_tool s c t "no_update").categories) ∧
    (∀ u, (lookupCat s.categories u).isSome →
      (lookupCat (assign_to_existing_tool s c t "no_update").categories u).isSome) := by
  have hres : (assign_to_existing_tool s c t "no_update").categories
      = dictInsert s.categories t
        { cat with queries := cat.queries ++ c.queries,
                   samples := cat.samples ++ c.samples } := by
    simp [assign_to_existing_tool, hcat]
  have hkeys : (assign_to_existing_tool s c t "no_update").categories.map (fun p => p.1)
      = s.categories.map (fun p => p.1) := by
    rw [hres]
    exact keys_dictInsert_present s.categories t _ (by simp [hcat])
  refine ⟨?_, hkeys, ?_, ?_, ?_⟩
  · have hsum := sum_dictInsert_of_lookup s.categories t
      { cat with queries := cat.queries ++ c.queries,
                 samples := cat.samples ++ c.samples } cat hknd hcat
    rw [hres]
    simp only [List.length_append] at hsum
    omega
  · rw [hkeys]
    exact hknd
  · intro hkb
    exact keysBounded_of_keys_eq s.categories _ hkeys hkb
  · intro u hu
    rw [hres]
    exact lookup_dictInsert_isSome_mono _ _ _ _ hu

theorem desc_update_effect (m : List (String × Category)) (t du : String)
    (cat2 : Category) (hknd : (m.map (fun p => p.1)).Nodup)
    (hcat2 : lookupCat m t = some cat2) :
    ((dictInsert m t { cat2 with description := du }).map
        (fun p => p.2.queries.length)).sum
      = (m.map (fun p => p.2.queries.length)).sum ∧
    (dictInsert m t { cat2 with description := du }).map (fun p => p.1)
      = m.map (fun p => p.1) := by
  constructor
  · have hsum := sum_dictInsert_of_lookup m t { cat2 with description := du } cat2 hknd hcat2
    simp only at hsum
    omega
  · exact keys_dictInsert_present m t _ (by simp [hcat2])

theorem subdivide_tool_effect (s : GraphState) (c : Cluster) (k : Int) (mcs : Nat)
    (hknd : (s.categories.map (fun p => p.1)).Nodup) (hkb : KeysBounded s.categories) :
    ((subdivide_task_tool s c k mcs).categories.map (fun p => p.2.queries.length)).sum
        + ((subdivide_task_tool s c k mcs).tasks.map (fun t => t.queries.length)).sum
      = (s.categories.map (fun p => p.2.queries.length)).sum
        + (s.tasks.map (fun t => t.queries.length)).sum + c.queries.length ∧
    ((subdivide_task_tool s c k mcs).categories.map (fun p => p.1)).Nodup ∧
    KeysBounded (subdivide_task_tool s c k mcs).categories ∧
    (∀ t, (lookupCat s.categories t).isSome →
      (lookupCat (subdivide_task_tool s c k mcs).categories t).isSome) := by
  unfold subdivide_task_tool
  by_cases hsmall : c.queries.length < mcs
  · simp only [if_pos hsmall]
    by_cases htr : lookupCat s.categories "TRASH_CATEGORY" = none
    · simp only [if_pos htr]
      have h1some : lookupCat
          (dictInsert s.categories "TRASH_CATEGORY"
            { id := "TRASH_CATEGORY", description := trash_category_description,
              queries := [], samples := [] ++ c.samples }) "TRASH_CATEGORY"
          = some { id := "TRASH_CATEGORY", description := trash_category_description,
                   queries := [], samples := [] ++ c.samples } :=
        lookupCat_dictInsert_self s.categories "TRASH_CATEGORY" _
      have hknd1 : ((dictInsert s.categories "TRASH_CATEGORY"
          { id := "TRASH_CATEGORY", description := trash_category_description,
            queries := [], samples := [] ++ c.samples }).map (fun p => p.1)).Nodup :=
        keys_nodup_dictInsert s.categories "TRASH_CATEGORY" _ hknd
      simp only [h1some]
      have hsum1 := sum_dictInsert_absent s.categories "TRASH_CATEGORY"
        { id := "TRASH_CATEGORY", description := trash_category_description,
          queries := [], samples := [] ++ c.samples } htr
      have hsum2 := sum_dictInsert_of_lookup
        (dictInsert s.categories "TRASH_CATEGORY"
          { id := "TRASH_CATEGORY", description := trash_category_description,
            queries := [], samples := [] ++ c.samples }) "TRASH_CATEGORY"
        { id := "TRASH_CATEGORY", description := trash_category_description,
          queries := [] ++ c.queries, samples := [] ++ c.samples }
        { id := "TRASH_CATEGORY", description := trash_category_description,
          queries := [], samples := [] ++ c.samples } hknd1 h1some
      have hkeys2 := keys_dictInsert_present
        (dictInsert s.categories "TRASH_CATEGORY"
          { id := "TRASH_CATEGORY", description := trash_category_description,
            queries := [], samples := [] ++ c.samples }) "TRASH_CATEGORY"
        { id := "TRASH_CATEGORY", description := trash_category_description,
          queries := [] ++ c.queries, samples := [] ++ c.samples } (by rw [h1some]; rfl)
      refine ⟨?_, ?_, ?_, ?_⟩
      · simp only [List.length_nil, List.nil_append, List.length_append] at hsum1 hsum2 ⊢
        omega
      · rw [hkeys2]
        exact hknd1
      · apply keysBounded_of_keys_eq _ _ hkeys2
        rw [dictInsert_absent_eq s.categories "TRASH_CATEGORY" _ htr]
        exact keysBounded_append_trash s.categories _ hkb
      · intro u hu
        exact lookup_dictInsert_isSome_mono _ _ _ _
          (lookup_dictInsert_isSome_mono _ _ _ _ hu)
    · simp only [if_neg htr]
      cases htr2 : lookupCat s.categories "TRASH_CATEGORY" with
      | none => exact absurd htr2 htr
      | some trash =>
        simp only [htr2]
        have hsum2 := sum_dictInsert_of_lookup s.categories "TRASH_CATEGORY"
          { trash with queries := trash.queries ++ c.queries } trash hknd htr2
        have hkeys2 := keys_dictInsert_present s.categories "TRASH_CATEGORY"
          { trash with queries := trash.queries ++ c.queries } (by simp [htr2])
        refine ⟨?_, ?_, ?_, ?_⟩
        · simp only [List.length_append] at hsum2
          omega
        · rw [hkeys2]
          exact hknd
        · exact keysBounded_of_keys_eq _ _ hkeys2 hkb
        · intro u hu
          exact lookup_dictInsert_isSome_mono _ _ _ _ hu
  · simp only [if_neg hsmall]
    refine ⟨?_, hknd, hkb, fun u hu => hu⟩
    simp [List.sum_append]
    omega

theorem processCluster_eq_create (s : GraphState) (c : Cluster) (d : Decision)
    (hj : c.judge = some d) (ha : pyLower d.action = "create") :
    processCluster s c = _handle_create_action s d := by
  simp [processCluster, hj, ha]

theorem processCluster_eq_assign (s : GraphState) (c : Cluster) (d : Decision)
    (hj : c.judge = some d) (ha : pyLower d.action = "assign") :
    processCluster s c = _handle_assign_action s d := by
  simp [processCluster, hj, ha]

theorem processCluster_eq_subdivide (s : GraphState) (c : Cluster) (d : Decision)
    (hj : c.judge = some d) (ha : pyLower d.action = "subdivide") :
    processCluster s c = _handle_subdivide_action s c d s.min_cluster_size := by
  simp [processCluster, hj, ha]

theorem processCluster_effect (s : GraphState) (c : Cluster)
    (hbnd : (s.clusters_list.map (fun x => x.id)).Nodup)
    (hc : c ∈ s.clusters_list)
    (hknd : (s.categories.map (fun p => p.1)).Nodup)
    (hkb : KeysBounded s.categories)
    (hgood : GoodCluster s c) :
    ((processCluster s c).categories.map (fun p => p.2.queries.length)).sum
        + ((processCluster s c).tasks.map (fun t => t.queries.length)).sum
      = (s.categories.map (fun p => p.2.queries.length)).sum
        + (s.tasks.map (fun t => t.queries.length)).sum + c.queries.length ∧
    ((processCluster s c).categories.map (fun p => p.1)).Nodup ∧
    KeysBounded (processCluster s c).categories ∧
    (∀ t, (lookupCat s.categories t).isSome →
      (lookupCat (processCluster s c).categories t).isSome) := by
  rcases hgood with ⟨d, hj, hrefs, hcase⟩
  have hres : get_clusters_by_ids s.clusters_list (parse_cluster_ids d.id) = [c] := by
    rw [hrefs]
    exact get_clusters_by_ids_self s.clusters_list c hbnd hc
  rcases hcase with hact | ⟨hact, t, htgt, ht0, hsome⟩ | ⟨hact, k, hk, hk0⟩
  · rw [processCluster_eq_create s c d hj hact]
    have heff := create_tool_effect s [c] (d.description.getD "新创建的类别") hknd hkb
    have hcc : _handle_create_action s d
        = create_new_category_tool s [c] (d.description.getD "新创建的类别") := by
      simp [_handle_create_action, hres]
    refine ⟨?_, ?_, ?_, ?_⟩
    · rw [hcc, (create_tool_frame s [c] (d.description.getD "新创建的类别")).1]
      have h1 := heff.1
      simp only [List.flatMap_cons, List.flatMap_nil, List.append_nil] at h1
      omega
    · rw [hcc]
      exact heff.2.1
    · rw [hcc]
      exact heff.2.2.1
    · intro u hu
      rw [hcc]
      exact heff.2.2.2 u hu
  · rw [processCluster_eq_assign s c d hj hact]
    obtain ⟨cat, hcat⟩ := Option.isSome_iff_exists.mp hsome
    have hstep := assign_tool_noUpdate_effect s c t cat hknd hcat
    have hframe := assign_tool_frame s c t "no_update"
    simp only [_handle_assign_action, hres]
    rw [if_neg (by simp : ¬ ([c] : List Cluster) = [])]
    simp only [htgt]
    rw [if_neg ht0]
    simp only [List.foldl_cons, List.foldl_nil]
    by_cases hdu : d.description_update.getD "no_update" = "no_update"
    · rw [if_neg (not_not_intro hdu)]
      refine ⟨?_, hstep.2.2.1, hstep.2.2.2.1 hkb, ?_⟩
      · rw [hframe.1]
        omega
      · intro u hu
        exact hstep.2.2.2.2 u hu
    · rw [if_pos hdu]
      have hs1 := hstep.2.2.2.2 t (by simp [hcat])
      cases hc2 : lookupCat (assign_to_existing_tool s c t "no_update").categories t with
      | none =>
        rw [hc2] at hs1
        simp at hs1
      | some cat2 =>
        simp only [hc2]
        have hupd := desc_update_effect (assign_to_existing_tool s c t "no_update").categories
          t (d.description_update.getD "no_update") cat2 hstep.2.2.1 hc2
        refine ⟨?_, ?_, ?_, ?_⟩
        · show ((dictInsert _ _ _).map (fun p => p.2.queries.length)).sum
              + ((assign_to_existing_tool s c t "no_update").tasks.map
                  (fun t => t.queries.length)).sum = _
          rw [hupd.1, hframe.1]
          omega
        · show ((dictInsert _ _ _).map (fun p => p.1)).Nodup
          rw [hupd.2]
          exact hstep.2.2.1
        · show KeysBounded (dictInsert _ _ _)
          apply keysBounded_of_keys_eq _ _ hupd.2
          exact hstep.2.2.2.1 hkb
        · intro u hu
          show (lookupCat (dictInsert _ _ _) u).isSome
          exact lookup_dictInsert_isSome_mono _ _ _ _ (hstep.2.2.2.2 u hu)
  · rw [processCluster_eq_subdivide s c d hj hact]
    simp only [_handle_subdivide_action, hk]
    rw [if_neg hk0]
    exact subdivide_tool_effect s c k s.min_cluster_size hknd hkb

theorem goodCluster_mono (s s2 : GraphState) (c : Cluster)
    (hmono : ∀ t, (lookupCat s.categories t).isSome → (lookupCat s2.categories t).isSome)
    (hg : GoodCluster s c) : GoodCluster s2 c := by
  rcases hg with ⟨d, hj, hrefs, hcase⟩
  refine ⟨d, hj, hrefs, ?_⟩
  rcases hcase with h | ⟨h1, t, h2, h3, h4⟩ | h
  · exact Or.inl h
  · exact Or.inr (Or.inl ⟨h1, t, h2, h3, hmono t h4⟩)
  · exact Or.inr (Or.inr h)

theorem foldl_processCluster_effect : ∀ (cs : List Cluster) (s : GraphState),
    (s.clusters_list.map (fun x => x.id)).Nodup →
    (∀ c ∈ cs, c ∈ s.clusters_list) →
    (s.categories.map (fun p => p.1)).Nodup →
    KeysBounded s.categories →
    (∀ c ∈ cs, GoodCluster s c) →
    ((cs.foldl processCluster s).categories.map (fun p => p.2.queries.length)).sum
        + ((cs.foldl processCluster s).tasks.map (fun t => t.queries.length)).sum
      = (s.categories.map (fun p => p.2.queries.length)).sum
        + (s.tasks.map (fun t => t.queries.length)).sum
        + (cs.map (fun c => c.queries.length)).sum := by
  intro cs
  induction cs with
  | nil =>
    intro s _ _ _ _ _
    simp
  | cons c tl ih =>
    intro s hbnd hmem hknd hkb hgood
    rw [List.foldl_cons]
    have heff := processCluster_effect s c hbnd (hmem c (by simp)) hknd hkb
      (hgood c (by simp))
    have hframe := processCluster_frame s c
    have ih2 := ih (processCluster s c) (by rw [hframe.1]; exact hbnd)
      (fun c2 hc2 => by rw [hframe.1]; exact hmem c2 (by simp [hc2]))
      heff.2.1 heff.2.2.1
      (fun c2 hc2 =>
        goodCluster_mono s (processCluster s c) c2 heff.2.2.2 (hgood c2 (by simp [hc2])))
    rw [ih2]
    have h1 := heff.1
    simp only [List.map_cons, List.sum_cons]
    omega

theorem dispatcher_conserves (s : GraphState)
    (hbnd : (s.clusters_list.map (fun x => x.id)).Nodup)
    (hknd : (s.categories.map (fun p => p.1)).Nodup)
    (hkb : KeysBounded s.categories)
    (hgood : ∀ c ∈ s.clusters_list, GoodCluster s c) :
    stateQueryCount (dispatcher_node s) = stateQueryCount s := by
  unfold dispatcher_node
  by_cases hempty : s.clusters_list = []
  · rw [if_pos hempty]
    simp [stateQueryCount, categoriesQueryCount, tasksQueryCount, batchQueryCount, hempty]
  · rw [if_neg hempty]
    have hfold := foldl_processCluster_effect s.clusters_list s hbnd (fun c hc => hc)
      hknd hkb hgood
    simp only [stateQueryCount, categoriesQueryCount, tasksQueryCount, batchQueryCount,
      List.map_nil, List.sum_nil]
    omega

theorem attach_preserves_lengths : ∀ (ds : List Decision) (cs : List Cluster),
    (_attach_decisions_to_clusters cs ds).map (fun c => c.queries.length)
      = cs.map (fun c => c.queries.length) := by
  intro ds
  induction ds with
  | nil =>
    intro cs
    rfl
  | cons d tl ih =>
    intro cs
    unfold _attach_decisions_to_clusters
    rw [List.foldl_cons]
    have := ih (cs.map (fun c =>
      if c.id ∈ parse_cluster_ids d.id then { c with judge := some d } else c))
    unfold _attach_decisions_to_clusters at this
    rw [this, List.map_map]
    apply List.map_congr_left
    intro c _
    by_cases hcc : c.id ∈ parse_cluster_ids d.id <;> simp [hcc]

theorem reviewer_conserves (decisions : List Decision) (s : GraphState) :
    stateQueryCount (reviewer_node decisions s) = stateQueryCount s := by
  unfold reviewer_node
  by_cases hempty : s.clusters_list = []
  · rw [if_pos hempty]
    simp [stateQueryCount, categoriesQueryCount, tasksQueryCount, batchQueryCount, hempty]
  · rw [if_neg hempty]
    simp [stateQueryCount, categoriesQueryCount, tasksQueryCount, batchQueryCount,
      attach_preserves_lengths]

theorem clusterer_conserves (labels : Nat → Nat)
    (extract_samples : List Query → List String) (cluster_counter : Nat)
    (s : GraphState) (hempty : s.clusters_list = [])
    (hlab : ∀ t, s.tasks.head? = some t →
      ∀ i, i < t.queries.length → labels i < clampedK t.queries t.k_value) :
    stateQueryCount (clusterer_node labels extract_samples cluster_counter s)
      = stateQueryCount s := by
  unfold clusterer_node
  cases htasks : s.tasks with
  | nil =>
    simp [stateQueryCount, categoriesQueryCount, tasksQueryCount, batchQueryCount,
      hempty, htasks]
  | cons t rest =>
    have hperm := perform_clustering_queries_perm t.queries t.k_value labels
      extract_samples cluster_counter (hlab t (by rw [htasks]; rfl))
    have hlen : ((perform_clustering t.queries t.k_value labels extract_samples
        cluster_counter).map (fun c => c.queries.length)).sum = t.queries.length := by
      have h1 := hperm.length_eq
      rw [List.length_flatten, List.map_map] at h1
      exact h1
    simp only [stateQueryCount, categoriesQueryCount, tasksQueryCount, batchQueryCount,
      hempty, htasks, List.map_cons, List.sum_cons, List.map_nil, List.sum_nil]
    omega

theorem addRefIds_cons (c : String) (rest seen dups : List String) :
    addRefIds (c :: rest) seen dups
      = if c ∈ seen then addRefIds rest seen (dups ++ [c])
        else addRefIds rest (seen ++ [c]) dups := by
  by_cases h : c ∈ seen <;> simp [addRefIds, h]

theorem addRefIds_mem : ∀ (cids seen dups : List String) (x : String),
    x ∈ (addRefIds cids seen dups).1 ↔ x ∈ seen ∨ x ∈ cids := by
  intro cids
  induction cids with
  | nil =>
    intro seen dups x
    simp [addRefIds]
  | cons c rest ih =>
    intro seen dups x
    rw [addRefIds_cons]
    by_cases hc : c ∈ seen
    · rw [if_pos hc, ih]
      constructor
      · rintro (h | h)
        · exact Or.inl h
        · exact Or.inr (List.mem_cons_of_mem c h)
      · rintro (h | h)
        · exact Or.inl h
        · rcases List.mem_cons.mp h with h | h
          · exact Or.inl (h ▸ hc)
          · exact Or.inr h
    · rw [if_neg hc, ih]
      simp only [List.mem_append, List.mem_singleton, List.mem_cons]
      tauto

theorem addRefIds_dups_nil : ∀ (cids seen dups : List String),
    (addRefIds cids seen dups).2 = []
      ↔ dups = [] ∧ cids.Nodup ∧ ∀ x ∈ cids, x ∉ seen := by
  intro cids
  induction cids with
  | nil =>
    intro seen dups
    simp [addRefIds]
  | cons c rest ih =>
    intro seen dups
    rw [addRefIds_cons]
    by_cases hc : c ∈ seen
    · rw [if_pos hc, ih]
      constructor
      · intro h
        exact absurd h.1 (by simp)
      · rintro ⟨_, _, hall⟩
        exact absurd hc (hall c (by simp))
    · rw [if_neg hc, ih]
      simp only [List.nodup_cons, List.mem_append, List.mem_singleton]
      constructor
      · rintro ⟨hd, hnd, hall⟩
        refine ⟨hd, ⟨fun hcr => (hall c hcr) (Or.inr rfl), hnd⟩, ?_⟩
        intro x hx
        rcases List.mem_cons.mp hx with h | h
        · subst h
          exact hc
        · exact fun hxs => hall x h (Or.inl hxs)
      · rintro ⟨hd, ⟨hcr, hnd⟩, hall⟩
        refine ⟨hd, hnd, ?_⟩
        intro x hx hmem
        rcases hmem with h | h
        · exact hall x (List.mem_cons_of_mem c hx) h
        · subst h
          exact hcr hx

theorem parseOneDecision_ok_props (cats : List String) (r : RawDecision) (d : Decision)
    (h : parseOneDecision cats r = .ok d) :
    actionNormOf r ∈ (["create", "assign", "subdivide"] : List String) ∧
    (actionNormOf r = "create" → textOf r.description ≠ none) ∧
    (actionNormOf r = "assign" → textOf r.target_id ≠ none ∧
      textOf r.description_update ≠ none ∧
      ∀ t, textOf r.target_id = some t → pyStrip t ∈ cats) ∧
    (actionNormOf r = "subdivide" → textOf r.k_value ≠ none ∧
      ∀ ks, textOf r.k_value = some ks → pyParseInt (pyStrip ks) ≠ none) ∧
    refsOfRaw r = (pySplit d.id).map (fun s => pyStrip s) := by
  cases hid : textOf r.id with
  | none => simp [parseOneDecision, hid] at h
  | some idText =>
  cases hac : textOf r.action with
  | none => simp [parseOneDecision, hid, hac] at h
  | some actText =>
  have hnorm : actionNormOf r = pyLower (pyStrip actText) := by
    simp [actionNormOf, hac]
  simp only [parseOneDecision, hid, hac] at h
  by_cases hcr : pyLower (pyStrip actText) = "create"
  · rw [if_pos hcr] at h
    cases hde : textOf r.description with
    | none => simp [hde] at h
    | some desc =>
      simp only [hde] at h
      injection h with h2
      subst h2
      refine ⟨?_, ?_, ?_, ?_, ?_⟩
      · rw [hnorm, hcr]
        simp
      · intro _
        simp
      · intro hasg
        rw [hnorm, hcr] at hasg
        exact absurd hasg (by decide)
      · intro hsdg
        rw [hnorm, hcr] at hsdg
        exact absurd hsdg (by decide)
      · simp only [refsOfRaw, hid, Option.getD_some]
  · rw [if_neg hcr] at h
    by_cases has : pyLower (pyStrip actText) = "assign"
    · rw [if_pos has] at h
      cases htg : textOf r.target_id with
      | none => simp [htg] at h
      | some t =>
        simp only [htg] at h
        by_cases hmem : pyStrip t ∈ cats
        · rw [if_neg (not_not_intro hmem)] at h
          cases hdu : textOf r.description_update with
          | none => simp [hdu] at h
          | some du =>
            simp only [hdu] at h
            injection h with h2
            subst h2
            refine ⟨?_, ?_, ?_, ?_, ?_⟩
            · rw [hnorm, has]
              simp
            · intro hcg
              rw [hnorm, has] at hcg
              exact absurd hcg (by decide)
            · intro _
              refine ⟨by simp, by simp, ?_⟩
              intro t2 ht2
              injection ht2 with ht3
              rw [← ht3]
              exact hmem
            · intro hsdg
              rw [hnorm, has] at hsdg
              exact absurd hsdg (by decide)
            · simp only [refsOfRaw, hid, Option.getD_some]
        · rw [if_pos hmem] at h
          simp at h
    · rw [if_neg has] at h
      by_cases hsd : pyLower (pyStrip actText) = "subdivide"
      · rw [if_pos hsd] at h
        cases hkv : textOf r.k_value with
        | none => simp [hkv] at h
        | some ks =>
          simp only [hkv] at h
          cases hpi : pyParseInt (pyStrip ks) with
          | none => simp [hpi] at h
          | some kint =>
            simp only [hpi] at h
            injection h with h2
            subst h2
            refine ⟨?_, ?_, ?_, ?_, ?_⟩
            · rw [hnorm, hsd]
              simp
            · intro hcg
              rw [hnorm, hsd] at hcg
              exact absurd hcg (by decide)
            · intro hasg
              rw [hnorm, hsd] at hasg
              exact absurd hasg (by decide)
            · intro _
              refine ⟨by simp, ?_⟩
              intro ks2 hks2
              injection hks2 with hks3
              rw [← hks3, hpi]
              simp
            · simp only [refsOfRaw, hid, Option.getD_some]
      · rw [if_neg hsd] at h
        simp at h

theorem parseAllDecisions_ok (cats : List String) :
    ∀ (raws : List RawDecision) (seen dups : List String)
    (out : List Decision × List String × List String),
    parseAllDecisions cats raws seen dups = .ok out →
    (∀ r ∈ raws, ∃ d, parseOneDecision cats r = .ok d) ∧
    (∀ x, x ∈ out.2.1 ↔ x ∈ seen ∨ ∃ r ∈ raws, x ∈ refsOfRaw r) ∧
    (out.2.2 = [] ↔ dups = [] ∧ (raws.flatMap (fun r => refsOfRaw r)).Nodup ∧
      ∀ x ∈ raws.flatMap (fun r => refsOfRaw r), x ∉ seen) := by
  intro raws
  induction raws with
  | nil =>
    intro seen dups out h
    simp only [parseAllDecisions] at h
    injection h with h2
    subst h2
    simp
  | cons r rest ih =>
    intro seen dups out h
    simp only [parseAllDecisions] at h
    cases hone : parseOneDecision cats r with
    | error e =>
      simp only [hone] at h
      exact (Except.noConfusion h)
    | ok d =>
      simp only [hone] at h
      have hrefs := (parseOneDecision_ok_props cats r d hone).2.2.2.2
      cases hrec : parseAllDecisions cats rest
          (addRefIds ((pySplit d.id).map (fun s => pyStrip s)) seen dups).1
          (addRefIds ((pySplit d.id).map (fun s => pyStrip s)) seen dups).2 with
      | error e =>
        simp only [hrec] at h
        exact (Except.noConfusion h)
      | ok out2 =>
        obtain ⟨ds, seen2, dups2⟩ := out2
        simp only [hrec] at h
        injection h with h2
        subst h2
        have ihres := ih _ _ _ hrec
        refine ⟨?_, ?_, ?_⟩
        · intro r2 hr2
          rcases List.mem_cons.mp hr2 with hr2 | hr2
          · exact ⟨d, hr2 ▸ hone⟩
          · exact ihres.1 r2 hr2
        · intro x
          have h1 := ihres.2.1 x
          rw [addRefIds_mem] at h1
          rw [← hrefs] at h1
          simp only [List.exists_mem_cons_iff]
          constructor
          · intro hx
            rcases h1.mp hx with (hx2 | hx2) | hx2
            · exact Or.inl hx2
            · exact Or.inr (Or.inl hx2)
            · exact Or.inr (Or.inr hx2)
          · intro hx
            apply h1.mpr
            rcases hx with hx | hx | hx
            · exact Or.inl (Or.inl hx)
            · exact Or.inl (Or.inr hx)
            · exact Or.inr hx
        · have h1 := ihres.2.2
          rw [addRefIds_dups_nil] at h1
          rw [← hrefs] at h1
          simp only [List.flatMap_cons, List.nodup_append, List.mem_append]
          constructor
          · intro hd2
            rcases h1.mp hd2 with ⟨⟨hd, hnd1, hdisj1⟩, hnd2, hall⟩
            refine ⟨hd, ⟨hnd1, hnd2, ?_⟩, ?_⟩
            · intro a ha1 ha2
              exact (hall a ha2) ((addRefIds_mem _ seen dups a).mpr (Or.inr (hrefs ▸ ha1)))
            · intro x hx
              rcases hx with hx | hx
              · exact hdisj1 x hx
              · intro hxs
                exact (hall x hx) ((addRefIds_mem _ seen dups x).mpr (Or.inl hxs))
          · rintro ⟨hd, ⟨hnd1, hnd2, hdisj⟩, hall⟩
            apply h1.mpr
            refine ⟨⟨hd, hnd1, fun x hx => hall x (Or.inl hx)⟩, hnd2, ?_⟩
            intro x hx hmem
            rcases (addRefIds_mem _ seen dups x).mp hmem with hxs | hxc
            · exact hall x (Or.inr hx) hxs
            · exact hdisj (hrefs ▸ hxc : x ∈ refsOfRaw r) hx

theorem validate_invalid_decisions (cluster_ids existing : List String)
    (raws : List RawDecision)
    (h : (_validate_xml_response cluster_ids existing raws).valid = false) :
    (_validate_xml_response cluster_ids existing raws).decisions = [] := by
  unfold _validate_xml_response at h ⊢
  cases hpa : parseAllDecisions existing raws [] [] with
  | error e => simp [hpa]
  | ok out =>
    obtain ⟨ds, got, dups⟩ := out
    simp only [hpa] at h ⊢
    by_cases hcond : cluster_ids.filter (fun cid => ¬ (cid ∈ got)) = []
        ∧ got.filter (fun cid => ¬ (cid ∈ cluster_ids)) = [] ∧ dups = []
    · rw [if_pos hcond] at h
      simp at h
    · rw [if_neg hcond]

theorem validate_valid_sound (cluster_ids existing : List String)
    (raws : List RawDecision)
    (h : (_validate_xml_response cluster_ids existing raws).valid = true) :
    (∀ cid ∈ cluster_ids, ∃ r ∈ raws, cid ∈ refsOfRaw r) ∧
    (∀ r ∈ raws, ∀ cid ∈ refsOfRaw r, cid ∈ cluster_ids) ∧
    (raws.flatMap (fun r => refsOfRaw r)).Nodup ∧
    (∀ r ∈ raws,
      actionNormOf r ∈ (["create", "assign", "subdivide"] : List String) ∧
      (actionNormOf r = "create" → textOf r.description ≠ none) ∧
      (actionNormOf r = "assign" → textOf r.target_id ≠ none ∧
        textOf r.description_update ≠ none ∧
        ∀ t, textOf r.target_id = some t → pyStrip t ∈ existing) ∧
      (actionNormOf r = "subdivide" → textOf r.k_value ≠ none ∧
        ∀ ks, textOf r.k_value = some ks → pyParseInt (pyStrip ks) ≠ none)) := by
  unfold _validate_xml_response at h
  cases hpa : parseAllDecisions existing raws [] [] with
  | error e =>
    simp only [hpa] at h
    simp at h
  | ok out =>
    obtain ⟨ds, got, dups⟩ := out
    simp only [hpa] at h
    by_cases hcond : cluster_ids.filter (fun cid => ¬ (cid ∈ got)) = []
        ∧ got.filter (fun cid => ¬ (cid ∈ cluster_ids)) = [] ∧ dups = []
    · have hall := parseAllDecisions_ok existing raws [] [] (ds, got, dups) hpa
      have hmem : ∀ x : String, x ∈ got ↔ ∃ r ∈ raws, x ∈ refsOfRaw r := by
        intro x
        have := hall.2.1 x
        simpa using this
      refine ⟨?_, ?_, ?_, ?_⟩
      · intro cid hcid
        have h1 := List.filter_eq_nil_iff.mp hcond.1 cid hcid
        have h2 : cid ∈ got := by
          by_contra h3
          exact h1 (by simpa using h3)
        exact (hmem cid).mp h2
      · intro r hr cid hcid
        have h2 : cid ∈ got := (hmem cid).mpr ⟨r, hr, hcid⟩
        have h1 := List.filter_eq_nil_iff.mp hcond.2.1 cid h2
        by_contra h3
        exact h1 (by simpa using h3)
      · have h1 := hall.2.2.mp hcond.2.2
        exact h1.2.1
      · intro r hr
        rcases hall.1 r hr with ⟨d, hone⟩
        have hprops := parseOneDecision_ok_props existing r d hone
        exact ⟨hprops.1, hprops.2.1, hprops.2.2.1, hprops.2.2.2.1⟩
    · rw [if_neg hcond] at h
      simp at h

theorem existingCategoriesXml_congr (cats1 cats2 : List CatDisplay)
    (h : cats1.map (fun c => (c.id, c.description, c.queries.length))
      = cats2.map (fun c => (c.id, c.description, c.queries.length))) :
    existingCategoriesXml cats1 = existingCategoriesXml cats2 := by
  have hmap : ∀ cats : List CatDisplay,
      cats.map (fun cat =>
        "  <category>\n    <id>" ++ cat.id ++ "</id>\n    <description>" ++
          cat.description ++ "</description>\n    <query_count>" ++
          toString cat.queries.length ++ "</query_count>\n  </category>\n")
      = (cats.map (fun c => (c.id, c.description, c.queries.length))).map
          (fun p => "  <category>\n    <id>" ++ p.1 ++ "</id>\n    <description>" ++
            p.2.1 ++ "</description>\n    <query_count>" ++
            toString p.2.2 ++ "</query_count>\n  </category>\n") := by
    intro cats
    rw [List.map_map]
    rfl
  have hnil : cats1 = [] ↔ cats2 = [] := by
    constructor
    · intro hh
      rw [hh] at h
      exact List.map_eq_nil_iff.mp h.symm
    · intro hh
      rw [hh] at h
      exact List.map_eq_nil_iff.mp h
  by_cases h1 : cats1 = []
  · have h2 := hnil.mp h1
    unfold existingCategoriesXml
    rw [if_pos h1, if_pos h2]
  · have h2 : ¬ cats2 = [] := fun hh => h1 (hnil.mpr hh)
    unfold existingCategoriesXml
    rw [if_neg h1, if_neg h2, hmap, hmap, h]

/-- C1: the spec requires a multi-reference decision to be executed exactly once,
but the dispatcher iterates over clusters and the reviewer attaches the decision to
every referenced cluster, so a `create` over `cluster-1,cluster-2` runs once per
referenced cluster. In a concrete two-query run both clusters carry the same
decision and dispatch creates two categories (`CAT-001` and `CAT-002`), each
holding both clusters' queries — the action is applied once per referenced
cluster, not exactly once. -/
theorem claim_c1_multi_ref_create_double_applied :
    exMultiRefState.clusters_list.length = 2 ∧
    (∀ c ∈ exMultiRefState.clusters_list, c.judge = some exCreateDecision) ∧
    exMultiRefDispatched.categories.map (fun p => p.1) = ["CAT-001", "CAT-002"] ∧
    exMultiRefDispatched.categories.map (fun p => p.2.queries)
      = [[exQuery 1, exQuery 2], [exQuery 1, exQuery 2]] := by
  decide

/-- C2 (counterexample): query conservation fails as stated. In the concrete
two-query run with a validated multi-reference `create` decision, the state holds
2 query occurrences before dispatch but 4 afterwards, while `total_queries = 2`. -/
theorem claim_c2_conservation_counterexample :
    stateQueryCount exMultiRefState = 2 ∧
    exMultiRefState.total_queries = 2 ∧
    stateQueryCount exMultiRefDispatched = 4 ∧
    exMultiRefDispatched.total_queries = 2 ∧
    stateQueryCount exMultiRefDispatched ≠ exMultiRefDispatched.total_queries := by
  decide

/-- C2 (amended): the conserved quantity `Σ|cat.queries| + Σ(task queries) +
Σ(batch queries)` equals `total_queries` at initialization, and each stage
preserves it under the conditions the pipeline normally maintains: the
partitioner when it starts from an empty batch and the k-means labelling respects
`[0, clamped k)`; the reviewer unconditionally; the dispatcher when the batch
cluster ids are distinct, the category keys are distinct and bounded by the map's
size, and every batch cluster carries a decision referencing exactly itself with a
recognized action, an existing assign target and a nonzero subdivide `k_value`.
Multi-reference decisions (see the counterexample) and zero `k_value` subdivides
violate conservation. -/
theorem claim_c2_conservation_amended (initial_queries : List Query) (initial_k : Int)
    (dn : Option String) (labels : Nat → Nat)
    (extract_samples : List Query → List String) (cluster_counter : Nat)
    (decisions : List Decision) (s1 s2 s3 : GraphState)
    (h1 : s1.clusters_list = [])
    (h1lab : ∀ t, s1.tasks.head? = some t →
      ∀ i, i < t.queries.length → labels i < clampedK t.queries t.k_value)
    (h3a : (s3.clusters_list.map (fun x => x.id)).Nodup)
    (h3b : (s3.categories.map (fun p => p.1)).Nodup)
    (h3c : KeysBounded s3.categories)
    (h3d : ∀ c ∈ s3.clusters_list, GoodCluster s3 c) :
    stateQueryCount (runInitialState initial_queries initial_k dn)
      = initial_queries.length ∧
    stateQueryCount (clusterer_node labels extract_samples cluster_counter s1)
      = stateQueryCount s1 ∧
    stateQueryCount (reviewer_node decisions s2) = stateQueryCount s2 ∧
    stateQueryCount (dispatcher_node s3) = stateQueryCount s3 := by
  refine ⟨?_, ?_, ?_, ?_⟩
  · simp [stateQueryCount, categoriesQueryCount, tasksQueryCount, batchQueryCount,
      runInitialState]
  · exact clusterer_conserves labels extract_samples cluster_counter s1 h1 h1lab
  · exact reviewer_conserves decisions s2
  · exact dispatcher_conserves s3 h3a h3b h3c h3d

/-- C2 (witness): the amended conservation statement at a concrete run. -/
theorem claim_c2_conservation_witness :
    stateQueryCount (runInitialState exQueries2 2 none) = exQueries2.length ∧
    stateQueryCount (clusterer_node (fun i => i) exExtract 0
        (runInitialState exQueries2 2 none))
      = stateQueryCount (runInitialState exQueries2 2 none) ∧
    stateQueryCount (reviewer_node [exCreateDecision] exMultiRefState)
      = stateQueryCount exMultiRefState ∧
    stateQueryCount (dispatcher_node c2WitnessState) = stateQueryCount c2WitnessState :=
  claim_c2_conservation_amended exQueries2 2 none (fun i => i) exExtract 0
    [exCreateDecision] (runInitialState exQueries2 2 none) exMultiRefState
    c2WitnessState rfl
    (fun t ht => by
      injection ht with h2
      subst h2
      decide)
    (by decide) (by decide)
    (by intro p hp; simp [c2WitnessState] at hp)
    (fun c hc => by
      have hc2 : c = exGoodCluster := by simpa [c2WitnessState] using hc
      subst hc2
      exact ⟨_, rfl, by decide, Or.inl (by decide)⟩)

/-- C3 (counterexample): category id contiguity fails as stated. A run over
eleven queries first routes a too-small cluster to `TRASH_CATEGORY` and then
creates a category: the new id is allocated from the map size including the trash
entry, so the final keys are `TRASH_CATEGORY` and `CAT-002` with no `CAT-001` —
not a contiguous prefix. -/
theorem claim_c3_contiguity_counterexample :
    c3AfterSecondDispatch.categories.map (fun p => p.1) = ["TRASH_CATEGORY", "CAT-002"] ∧
    ¬ catPrefixProperty (c3AfterSecondDispatch.categories.map (fun p => p.1)) := by
  constructor
  · decide
  · intro hprop
    have := hprop.2
    revert this
    decide

/-- C3 (amended): `create_new_category_tool` always allocates the id
`CAT-<|categories| + 1, zero-padded to 3>`; when the key set is bounded this id is
fresh and is appended, and when the current keys are exactly the contiguous prefix
`CAT-001 … CAT-00N` (in particular `TRASH_CATEGORY` absent), the keys after the
create are the contiguous prefix of length `N + 1` and satisfy the claimed shape.
Creating `TRASH_CATEGORY` before a create breaks contiguity, as the
counterexample shows. -/
theorem claim_c3_id_allocation_amended (s : GraphState) (clusters : List Cluster)
    (description : String)
    (hkb : KeysBounded s.categories)
    (hpfx : s.categories.map (fun p => p.1)
      = (List.range s.categories.length).map (fun i => "CAT-" ++ pad3 (i + 1))) :
    (create_new_category_tool s clusters description).categories.map (fun p => p.1)
      = s.categories.map (fun p => p.1)
        ++ ["CAT-" ++ pad3 (s.categories.length + 1)] ∧
    (create_new_category_tool s clusters description).categories.map (fun p => p.1)
      = (List.range (s.categories.length + 1)).map (fun i => "CAT-" ++ pad3 (i + 1)) ∧
    catPrefixProperty
      ((create_new_category_tool s clusters description).categories.map
        (fun p => p.1)) := by
  have hfresh := keysBounded_fresh s.categories hkb
  have hkeys : (create_new_category_tool s clusters description).categories.map
      (fun p => p.1)
      = s.categories.map (fun p => p.1) ++ ["CAT-" ++ pad3 (s.categories.length + 1)] :=
    keys_dictInsert_absent s.categories _ _ hfresh
  have hrange : (create_new_category_tool s clusters description).categories.map
      (fun p => p.1)
      = (List.range (s.categories.length + 1)).map (fun i => "CAT-" ++ pad3 (i + 1)) := by
    rw [hkeys, hpfx, List.range_succ, List.map_append]
    simp
  refine ⟨hkeys, hrange, ?_⟩
  rw [hrange]
  have hfilter : ((List.range (s.categories.length + 1)).map
        (fun i => "CAT-" ++ pad3 (i + 1))).filter (fun y => y ≠ "TRASH_CATEGORY")
      = (List.range (s.categories.length + 1)).map (fun i => "CAT-" ++ pad3 (i + 1)) := by
    rw [List.filter_eq_self]
    intro a ha
    rcases List.mem_map.mp ha with ⟨i, _, hi⟩
    simp only [decide_eq_true_eq]
    rw [← hi]
    exact fun hh => trash_ne_catId (i + 1) hh.symm
  constructor
  · intro x hx
    right
    rw [hfilter]
    simpa using hx
  · intro i hi
    rw [hfilter] at hi
    simp only [List.length_map, List.length_range] at hi
    exact List.mem_map_of_mem (fun i => "CAT-" ++ pad3 (i + 1)) hi

/-- C3 (witness): the amended id-allocation statement on a concrete state: a
create over an empty category map yields exactly the key `CAT-001`. -/
theorem claim_c3_id_allocation_witness :
    (create_new_category_tool c4State0 [exGoodCluster] "D").categories.map
        (fun p => p.1)
      = c4State0.categories.map (fun p => p.1) ++ ["CAT-" ++ pad3 1] ∧
    (create_new_category_tool c4State0 [exGoodCluster] "D").categories.map
        (fun p => p.1)
      = (List.range 1).map (fun i => "CAT-" ++ pad3 (i + 1)) ∧
    catPrefixProperty ((create_new_category_tool c4State0 [exGoodCluster] "D").categories.map
      (fun p => p.1)) :=
  claim_c3_id_allocation_amended c4State0 [exGoodCluster] "D"
    (by intro p hp; simp [c4State0] at hp) (by decide)

/-- C4 (counterexample): the claim's "appends that cluster's queries and its
samples … including ones routed to the trash after TRASH_CATEGORY already
exists" fails for samples. Dispatching a first small cluster creates
`TRASH_CATEGORY` seeded with its samples `["s1"]`; dispatching a second small
cluster (samples `["s2"]`) appends its queries but not its samples, because the
source's `samples.extend` sits inside the creation branch. -/
theorem claim_c4_trash_samples_counterexample :
    c4State1.tasks = [] ∧
    (lookupCat c4State1.categories "TRASH_CATEGORY").map (fun c => c.samples)
      = some ["s1"] ∧
    c4State2.tasks = [] ∧
    (lookupCat c4State2.categories "TRASH_CATEGORY").map (fun c => c.queries)
      = some [exQuery 1, exQuery 2] ∧
    (lookupCat c4State2.categories "TRASH_CATEGORY").map (fun c => c.samples)
      = some ["s1"] ∧
    c4SecondCluster.samples = ["s2"] ∧
    some (["s1"] : List String) ≠ some (["s1"] ++ ["s2"]) := by
  decide

/-- C4 (amended): for every dispatched `subdivide` decision with nonzero
`k_value` on a cluster strictly below `min_cluster_size`, no task is enqueued and
the cluster's queries are appended to `TRASH_CATEGORY`, which is created with the
fixed non-empty description on first need; the cluster's samples are taken over
only when this call creates `TRASH_CATEGORY` — a cluster routed after the trash
category already exists contributes its queries only. -/
theorem claim_c4_subdivide_below_floor_amended (s : GraphState) (c : Cluster)
    (d : Decision) (k : Int) (mcs : Nat)
    (hk : d.k_value = some k) (hk0 : k ≠ 0)
    (hsmall : c.queries.length < mcs) :
    (_handle_subdivide_action s c d mcs).tasks = s.tasks ∧
    trash_category_description ≠ "" ∧
    (lookupCat s.categories "TRASH_CATEGORY" = none →
      lookupCat (_handle_subdivide_action s c d mcs).categories "TRASH_CATEGORY"
        = some { id := "TRASH_CATEGORY", description := trash_category_description,
                 queries := c.queries, samples := c.samples }) ∧
    (∀ trash, lookupCat s.categories "TRASH_CATEGORY" = some trash →
      lookupCat (_handle_subdivide_action s c d mcs).categories "TRASH_CATEGORY"
        = some { trash with queries := trash.queries ++ c.queries }) := by
  simp only [_handle_subdivide_action, hk]
  rw [if_neg hk0]
  unfold subdivide_task_tool
  rw [if_pos hsmall]
  by_cases htr : lookupCat s.categories "TRASH_CATEGORY" = none
  · rw [if_pos htr]
    have h1some := lookupCat_dictInsert_self s.categories "TRASH_CATEGORY"
      { id := "TRASH_CATEGORY", description := trash_category_description,
        queries := [], samples := [] ++ c.samples }
    simp only [h1some]
    refine ⟨by trivial, by decide, ?_, ?_⟩
    · intro _
      exact lookupCat_dictInsert_self _ _ _
    · intro trash htrash
      rw [htr] at htrash
      exact Option.noConfusion htrash
  · rw [if_neg htr]
    cases htr2 : lookupCat s.categories "TRASH_CATEGORY" with
    | none => exact absurd htr2 htr
    | some trash =>
      simp only [htr2]
      refine ⟨by trivial, by decide, ?_, ?_⟩
      · intro hnone
        exact Option.noConfusion hnone
      · intro trash2 htrash2
        injection htrash2 with h3
        subst h3
        exact lookupCat_dictInsert_self _ _ _

/-- C4 (witness): the amended statement at a concrete dispatch of a second small
cluster while `TRASH_CATEGORY` already exists. -/
theorem claim_c4_subdivide_below_floor_witness :
    (_handle_subdivide_action c4State1 c4SecondCluster c4SecondDecision 10).tasks
      = c4State1.tasks ∧
    trash_category_description ≠ "" ∧
    (lookupCat c4State1.categories "TRASH_CATEGORY" = none →
      lookupCat (_handle_subdivide_action c4State1 c4SecondCluster c4SecondDecision
          10).categories "TRASH_CATEGORY"
        = some { id := "TRASH_CATEGORY", description := trash_category_description,
                 queries := c4SecondCluster.queries,
                 samples := c4SecondCluster.samples }) ∧
    (∀ trash, lookupCat c4State1.categories "TRASH_CATEGORY" = some trash →
      lookupCat (_handle_subdivide_action c4State1 c4SecondCluster c4SecondDecision
          10).categories "TRASH_CATEGORY"
        = some { trash with queries := trash.queries ++ c4SecondCluster.queries }) :=
  claim_c4_subdivide_below_floor_amended c4State1 c4SecondCluster c4SecondDecision 2 10
    rfl (by decide) (by decide)

/-- C5: the decision-set validation returns an invalid result — and an empty
decision list — whenever any batch cluster id is missing from the decisions, any
decision references an id outside the batch, any id is referenced twice, any
action is not create/assign/subdivide, any action-specific payload is missing,
any `k_value` fails integer parsing, or any assign target is absent from the
current category map. -/
theorem claim_c5_validation_rejects (cluster_ids existing : List String)
    (raws : List RawDecision)
    (hbad :
      (∃ cid ∈ cluster_ids, ∀ r ∈ raws, cid ∉ refsOfRaw r) ∨
      (∃ r ∈ raws, ∃ cid ∈ refsOfRaw r, cid ∉ cluster_ids) ∨
      ¬ (raws.flatMap (fun r => refsOfRaw r)).Nodup ∨
      (∃ r ∈ raws, actionNormOf r ∉ (["create", "assign", "subdivide"] : List String)) ∨
      (∃ r ∈ raws,
        (actionNormOf r = "create" ∧ textOf r.description = none) ∨
        (actionNormOf r = "assign" ∧
          (textOf r.target_id = none ∨ textOf r.description_update = none)) ∨
        (actionNormOf r = "subdivide" ∧ textOf r.k_value = none)) ∨
      (∃ r ∈ raws, actionNormOf r = "subdivide" ∧
        ∃ ks, textOf r.k_value = some ks ∧ pyParseInt (pyStrip ks) = none) ∨
      (∃ r ∈ raws, actionNormOf r = "assign" ∧
        ∃ t, textOf r.target_id = some t ∧ pyStrip t ∉ existing)) :
    (_validate_xml_response cluster_ids existing raws).valid = false ∧
    (_validate_xml_response cluster_ids existing raws).decisions = [] := by
  by_cases hv : (_validate_xml_response cluster_ids existing raws).valid = true
  · exfalso
    have hs := validate_valid_sound cluster_ids existing raws hv
    rcases hbad with ⟨cid, hcid, hnone⟩ | ⟨r, hr, cid, hcid, hnot⟩ | hnd | ⟨r, hr, hact⟩ |
      ⟨r, hr, hpay⟩ | ⟨r, hr, hsub, ks, hks, hpi⟩ | ⟨r, hr, hasg, t, ht, htm⟩
    · rcases hs.1 cid hcid with ⟨r, hr, hmem⟩
      exact hnone r hr hmem
    · exact hnot (hs.2.1 r hr cid hcid)
    · exact hnd hs.2.2.1
    · exact hact (hs.2.2.2 r hr).1
    · rcases hpay with ⟨h1, h2⟩ | ⟨h1, h2⟩ | ⟨h1, h2⟩
      · exact (hs.2.2.2 r hr).2.1 h1 h2
      · rcases h2 with h2 | h2
        · exact ((hs.2.2.2 r hr).2.2.1 h1).1 h2
        · exact ((hs.2.2.2 r hr).2.2.1 h1).2.1 h2
      · exact ((hs.2.2.2 r hr).2.2.2 h1).1 h2
    · exact (((hs.2.2.2 r hr).2.2.2 hsub).2 ks hks) hpi
    · exact htm (((hs.2.2.2 r hr).2.2.1 hasg).2.2 t ht)
  · have hvf : (_validate_xml_response cluster_ids existing raws).valid = false := by
      rw [Bool.not_eq_true] at hv
      exact hv
    exact ⟨hvf, validate_invalid_decisions cluster_ids existing raws hvf⟩

/-- C5 (witness): a concrete response whose only decision carries the unknown
action `fly` is rejected with no decision set. -/
theorem claim_c5_validation_rejects_witness :
    (_validate_xml_response ["c1"] []
      [{ id := some "c1", action := some "fly" }]).valid = false ∧
    (_validate_xml_response ["c1"] []
      [{ id := some "c1", action := some "fly" }]).decisions = [] :=
  claim_c5_validation_rejects ["c1"] [] [{ id := some "c1", action := some "fly" }]
    (by decide)

/-- C6: applying the dispatcher twice produces the same state as applying it
once: dispatch always clears the batch, and dispatching a state whose batch is
empty leaves its tasks and categories unchanged. -/
theorem claim_c6_dispatcher_idempotent (s s2 : GraphState)
    (h2 : s2.clusters_list = []) :
    dispatcher_node (dispatcher_node s) = dispatcher_node s ∧
    (dispatcher_node s).clusters_list = [] ∧
    (dispatcher_node s2).tasks = s2.tasks ∧
    (dispatcher_node s2).categories = s2.categories := by
  have hempty : ∀ u : GraphState, (dispatcher_node u).clusters_list = [] := by
    intro u
    unfold dispatcher_node
    by_cases h : u.clusters_list = [] <;> simp [h]
  have hnoop : ∀ u : GraphState, u.clusters_list = [] →
      dispatcher_node u = { u with clusters_list := [] } := by
    intro u hu
    unfold dispatcher_node
    rw [if_pos hu]
  refine ⟨?_, hempty s, ?_, ?_⟩
  · rw [hnoop (dispatcher_node s) (hempty s)]
    apply GraphState.ext <;> simp [hempty s]
  · rw [hnoop s2 h2]
  · rw [hnoop s2 h2]

/-- C6 (witness): dispatcher idempotence at a concrete state with a non-empty
batch, and no-op behavior at a concrete state with an empty batch. -/
theorem claim_c6_dispatcher_idempotent_witness :
    dispatcher_node (dispatcher_node exMultiRefState) = dispatcher_node exMultiRefState ∧
    (dispatcher_node exMultiRefState).clusters_list = [] ∧
    (dispatcher_node (runInitialState exQueries2 2 none)).tasks
      = (runInitialState exQueries2 2 none).tasks ∧
    (dispatcher_node (runInitialState exQueries2 2 none)).categories
      = (runInitialState exQueries2 2 none).categories :=
  claim_c6_dispatcher_idempotent exMultiRefState (runInitialState exQueries2 2 none) rfl

/-- C7: for a non-empty task, `perform_clustering` clamps `k` to the query count
when `|queries| < k` (a total function, no exception), and — under the
partitioner contract that labels lie in `[0, clamped k)` — the emitted clusters
partition the task's queries (flattened cluster queries are a permutation of the
input), every emitted cluster is non-empty (zero-member labels yield no cluster)
and carries `judge = none`. -/
theorem claim_c7_partitioner_partition (queries : List Query) (k_value : Int)
    (labels : Nat → Nat) (extract_samples : List Query → List String)
    (cluster_counter : Nat)
    (hlab : ∀ i, i < queries.length → labels i < clampedK queries k_value) :
    List.Perm
      (((perform_clustering queries k_value labels extract_samples
        cluster_counter).map (fun c => c.queries)).flatten) queries ∧
    (∀ c ∈ perform_clustering queries k_value labels extract_samples cluster_counter,
      c.queries ≠ [] ∧ c.judge = none) ∧
    ((queries.length : Int) < k_value →
      perform_clustering queries k_value labels extract_samples cluster_counter
        = perform_clustering queries (queries.length : Int) labels extract_samples
            cluster_counter) :=
  ⟨perform_clustering_queries_perm queries k_value labels extract_samples
      cluster_counter hlab,
   fun c hc => perform_clustering_mem queries k_value labels extract_samples
      cluster_counter c hc,
   fun hlt => perform_clustering_clamps queries k_value labels extract_samples
      cluster_counter hlt⟩

/-- C7 (witness): the partition property at a concrete three-query task with
`k = 2` and the labelling `i % 2`. -/
theorem claim_c7_partitioner_partition_witness :
    List.Perm
      (((perform_clustering [exQuery 1, exQuery 2, exQuery 3] 2 (fun i => i % 2)
        exExtract 0).map (fun c => c.queries)).flatten)
      [exQuery 1, exQuery 2, exQuery 3] ∧
    (∀ c ∈ perform_clustering [exQuery 1, exQuery 2, exQuery 3] 2 (fun i => i % 2)
        exExtract 0, c.queries ≠ [] ∧ c.judge = none) ∧
    (((3 : Nat) : Int) < 2 →
      perform_clustering [exQuery 1, exQuery 2, exQuery 3] 2 (fun i => i % 2)
          exExtract 0
        = perform_clustering [exQuery 1, exQuery 2, exQuery 3] (((3 : Nat) : Int))
            (fun i => i % 2) exExtract 0) := by
  have h := claim_c7_partitioner_partition [exQuery 1, exQuery 2, exQuery 3] 2
    (fun i => i % 2) exExtract 0 (by decide)
  exact h

/-- C8: the reviewer prompt is a pure function of the category display tuples
(id, description, query count), the batch display tuples, the configured goal and
the target range: two category lists agreeing on id, description and query count
— even with different query contents and embeddings — yield the identical prompt
string (and `dataset_name`, though accepted, is never used). Contents of category
queries never reach the prompt. -/
theorem claim_c8_prompt_purity (cats1 cats2 : List Category) (batch : List Cluster)
    (dataset_name1 dataset_name2 : Option String)
    (high_level_goal_cfg target_range_cfg : Option String)
    (h : cats1.map (fun c => (c.id, c.description, c.queries.length))
      = cats2.map (fun c => (c.id, c.description, c.queries.length))) :
    create_review_prompt (cats1.map create_category_display_dict)
        (batch.map create_cluster_display_dict) dataset_name1
        high_level_goal_cfg target_range_cfg
      = create_review_prompt (cats2.map create_category_display_dict)
        (batch.map create_cluster_display_dict) dataset_name2
        high_level_goal_cfg target_range_cfg := by
  have hx : existingCategoriesXml (cats1.map create_category_display_dict)
      = existingCategoriesXml (cats2.map create_category_display_dict) := by
    apply existingCategoriesXml_congr
    rw [List.map_map, List.map_map]
    exact h
  simp only [create_review_prompt]
  rw [hx]

/-- C8 (witness): two concrete single-category states agreeing on (id,
description, query count) but holding different query contents and embeddings
produce the identical prompt. -/
theorem claim_c8_prompt_purity_witness :
    create_review_prompt (c8Cats1.map create_category_display_dict)
        ([exGoodCluster].map create_cluster_display_dict) none none none
      = create_review_prompt (c8Cats2.map create_category_display_dict)
        ([exGoodCluster].map create_cluster_display_dict) (some "other") none none :=
  claim_c8_prompt_purity c8Cats1 c8Cats2 [exGoodCluster] none (some "other") none none
    (by decide)

/-- C9: `min_cluster_size` is computed once at run start as
`max(absolute_floor, ⌊ratio · total_queries⌋)` with the default floor 10 and
ratio 0.005 (the float ratio modelled as the exact rational 5/1000, `int()`
truncation as `Nat` floor division), `total_queries = |initial_queries|`, and no
stage — partitioner, reviewer or dispatcher — ever changes it. -/
theorem claim_c9_min_cluster_size (initial_queries : List Query) (initial_k : Int)
    (dn : Option String) (labels : Nat → Nat)
    (extract_samples : List Query → List String) (cluster_counter : Nat)
    (decisions : List Decision) (s : GraphState) :
    (runInitialState initial_queries initial_k dn).min_cluster_size
      = max 10 (initial_queries.length * 5 / 1000) ∧
    (runInitialState initial_queries initial_k dn).total_queries
      = initial_queries.length ∧
    (clusterer_node labels extract_samples cluster_counter s).min_cluster_size
      = s.min_cluster_size ∧
    (reviewer_node decisions s).min_cluster_size = s.min_cluster_size ∧
    (dispatcher_node s).min_cluster_size = s.min_cluster_size := by
  refine ⟨rfl, rfl, ?_, ?_, ?_⟩
  · unfold clusterer_node
    split <;> rfl
  · unfold reviewer_node
    split <;> rfl
  · unfold dispatcher_node
    split
    · rfl
    · exact (foldl_processCluster_frame s.clusters_list s).2.2.2

/-- C10: a validated `subdivide` decision whose `k_value` is the integer 0 passes
validation (only integer parsing is checked) but the dispatcher's Python-falsy
test `if not k_value` treats 0 like a missing value and skips the decision
entirely: no task is enqueued, no category changes, the batch is cleared, and the
cluster's queries end up in no task, no category and no batch cluster. -/
theorem claim_c10_subdivide_zero_k_skipped (s : GraphState) (c : Cluster)
    (d : Decision) (hbatch : s.clusters_list = [c]) (hj : c.judge = some d)
    (ha : d.action = "subdivide") (hk : d.k_value = some 0) :
    (dispatcher_node s).tasks = s.tasks ∧
    (dispatcher_node s).categories = s.categories ∧
    (dispatcher_node s).clusters_list = [] ∧
    (∀ q ∈ c.queries,
      ((∀ t ∈ s.tasks, q ∉ t.queries) →
        ∀ t ∈ (dispatcher_node s).tasks, q ∉ t.queries) ∧
      ((∀ p ∈ s.categories, q ∉ p.2.queries) →
        ∀ p ∈ (dispatcher_node s).categories, q ∉ p.2.queries) ∧
      (∀ cl ∈ (dispatcher_node s).clusters_list, q ∉ cl.queries)) := by
  have hproc : processCluster s c = s := by
    rw [processCluster_eq_subdivide s c d hj (by rw [ha]; decide)]
    simp only [_handle_subdivide_action, hk]
    simp
  have hdisp : dispatcher_node s = { s with clusters_list := [] } := by
    unfold dispatcher_node
    rw [if_neg (by rw [hbatch]; simp)]
    rw [hbatch]
    simp only [List.foldl_cons, List.foldl_nil, hproc]
  refine ⟨by rw [hdisp], by rw [hdisp], by rw [hdisp], ?_⟩
  intro q _
  refine ⟨?_, ?_, ?_⟩
  · intro hnt t ht
    rw [hdisp] at ht
    exact hnt t ht
  · intro hnc p hp
    rw [hdisp] at hp
    exact hnc p hp
  · intro cl hcl
    rw [hdisp] at hcl
    simp at hcl

/-- C10 (witness): the zero-`k_value` skip at a concrete one-cluster batch. -/
theorem claim_c10_subdivide_zero_k_skipped_witness :
    (dispatcher_node c10State).tasks = c10State.tasks ∧
    (dispatcher_node c10State).categories = c10State.categories ∧
    (dispatcher_node c10State).clusters_list = [] ∧
    (∀ q ∈ c10Cluster.queries,
      ((∀ t ∈ c10State.tasks, q ∉ t.queries) →
        ∀ t ∈ (dispatcher_node c10State).tasks, q ∉ t.queries) ∧
      ((∀ p ∈ c10State.categories, q ∉ p.2.queries) →
        ∀ p ∈ (dispatcher_node c10State).categories, q ∉ p.2.queries) ∧
      (∀ cl ∈ (dispatcher_node c10State).clusters_list, q ∉ cl.queries)) :=
  claim_c10_subdivide_zero_k_skipped c10State c10Cluster
    { id := "cluster-1", action := "subdivide", k_value := some 0 } rfl rfl rfl rfl

end TDR
